import Mathlib

/-!
Verification development for the BanktoFile statement-parsing backend.

The TypeScript sources are shallowly embedded here:
* `src/src/services/pdfParser.ts` — the `PDFParser` class (scanned-PDF
  detector, generic/lenient/columnar parsers, Monzo/NatWest/Nationwide/
  Santander parsers, dispatcher, `parsePDF`);
* the `CSVParser` class (`mapRowToTransaction`);
* the `OCRService.cleanOCRText` repair function;
* the `UploadController.handleUpload` response logic.

JavaScript strings are modelled as `List Char` (all source text is in the
Basic Multilingual Plane, so JS UTF-16 lengths and indices coincide with
character counts).  JS `number` values reaching the parsers are decimal
literals of at most a few digits, on which IEEE doubles are exact, so they
are modelled as `ℚ`; `NaN` is modelled by `Option ℚ` where the code can
produce it.  The JS regexes of the source are executed by a small
backtracking engine (`RE`) that mirrors leftmost-first, greedy/lazy
ECMAScript matching; each source regex is transcribed as an `RE` value.
-/

namespace B2F

/-- `Transaction` from `src/types/index.ts`:
`{ date: string; description: string; amount: number; balance?: number; type?: string }`. -/
structure Transaction where
  date : List Char
  description : List Char
  amount : ℚ
  balance : Option ℚ
  type : Option (List Char)
deriving Repr, DecidableEq

/-! ## JS string primitives -/

/-- JS whitespace (the characters relevant to this code base:
space, tab, LF, VT, FF, CR, NBSP, BOM). -/
def jsIsWs (c : Char) : Bool :=
  c = ' ' || c = '\t' || c = '\n' || c = '\x0b' || c = '\x0c' || c = '\r' ||
  c = Char.ofNat 0xa0 || c = Char.ofNat 0xfeff

/-- JS regex `\w`: `[A-Za-z0-9_]`. -/
def jsIsWord (c : Char) : Bool :=
  ('a' ≤ c && c ≤ 'z') || ('A' ≤ c && c ≤ 'Z') || ('0' ≤ c && c ≤ '9') || c = '_'

def jsIsDigit (c : Char) : Bool := '0' ≤ c && c ≤ '9'

/-- ASCII lower-casing, as `String.prototype.toLowerCase` acts on this
code base's characters (non-ASCII characters used here are unaffected). -/
def jsLowerChar (c : Char) : Char :=
  if 'A' ≤ c && c ≤ 'Z' then Char.ofNat (c.toNat + 32) else c

def jsLower (s : List Char) : List Char := s.map jsLowerChar

def jsTrim (s : List Char) : List Char :=
  (((s.dropWhile jsIsWs).reverse).dropWhile jsIsWs).reverse

/-- `needle.isPrefixOf hay` as a Bool. -/
def strStarts : List Char → List Char → Bool
  | [], _ => true
  | _ :: _, [] => false
  | a :: as, b :: bs => a = b && strStarts as bs

/-- JS `String.prototype.includes`. -/
def jsIncludes (hay needle : List Char) : Bool :=
  match hay with
  | [] => strStarts needle []
  | _ :: rest => strStarts needle hay || jsIncludes rest needle

/-- JS `String.prototype.indexOf` (−1 encoded as `none`). -/
def jsIndexOfAux (hay needle : List Char) (i : ℕ) : Option ℕ :=
  match hay with
  | [] => if strStarts needle [] then some i else none
  | _ :: rest =>
    if strStarts needle hay then some i else jsIndexOfAux rest needle (i + 1)

def jsIndexOf (hay needle : List Char) : Option ℕ := jsIndexOfAux hay needle 0

/-- JS `String.prototype.lastIndexOf`: index of the last occurrence. -/
def jsLastIndexOfAux (hay needle : List Char) (i : ℕ) (best : Option ℕ) : Option ℕ :=
  match hay with
  | [] => if strStarts needle [] then some i else best
  | _ :: rest =>
    jsLastIndexOfAux rest needle (i + 1) (if strStarts needle hay then some i else best)

def jsLastIndexOf (hay needle : List Char) : Option ℕ := jsLastIndexOfAux hay needle 0 none

/-- JS `String.prototype.substring(a, b)`: clamps both indices to the
string length and swaps them when `a > b`. -/
def jsSubstring (s : List Char) (a b : ℕ) : List Char :=
  let a := min a s.length
  let b := min b s.length
  if a ≤ b then (s.drop a).take (b - a) else (s.drop b).take (a - b)

/-- JS `s.substring(a)` (to the end of the string). -/
def jsSubstringFrom (s : List Char) (a : ℕ) : List Char := s.drop a

/-- JS `String.prototype.split("\n")`. -/
def jsSplitNl (s : List Char) : List (List Char) :=
  match s with
  | [] => [[]]
  | c :: rest =>
    match jsSplitNl rest with
    | [] => [[]]
    | l :: ls => if c = '\n' then [] :: l :: ls else (c :: l) :: ls

/-! ## JS `parseFloat` (decimal forms only — the only forms this code feeds it).
`none` models `NaN`. -/

def digitsVal (ds : List Char) : ℕ :=
  ds.foldl (fun acc c => acc * 10 + (c.toNat - '0'.toNat)) 0

def jsParseFloat (s : List Char) : Option ℚ :=
  let s := s.dropWhile jsIsWs
  let (neg, s) : Bool × List Char :=
    match s with
    | '-' :: t => (true, t)
    | '+' :: t => (false, t)
    | _ => (false, s)
  let intPart := s.takeWhile jsIsDigit
  let s := s.dropWhile jsIsDigit
  let fracPart :=
    match s with
    | '.' :: t => t.takeWhile jsIsDigit
    | _ => []
  if intPart = [] ∧ fracPart = [] then none
  else
    -- the exact decimal value `intPart.fracPart`, built with `mkRat`
    let v : ℚ :=
      mkRat (digitsVal intPart * 10 ^ fracPart.length + digitsVal fracPart)
        (10 ^ fracPart.length)
    some (if neg then -v else v)

/-! ## A small backtracking regex engine with ECMAScript semantics
(leftmost-first search, ordered alternation, greedy/lazy quantifiers,
capture groups, word boundaries, negative lookahead).  Each regex literal
of the TypeScript source is transcribed as an `RE` value below. -/

/-- Character class: a list of inclusive ranges, possibly negated. -/
structure CC where
  ranges : List (Char × Char)
  neg : Bool
deriving Repr

def CC.memb (cc : CC) (c : Char) : Bool :=
  (cc.ranges.any fun p => p.1 ≤ c && c ≤ p.2) != cc.neg

inductive RE where
  | emp
  | ch (cc : CC)
  | seq (a b : RE)
  | alt (a b : RE)
  | rep (a : RE) (lo : ℕ) (hi : Option ℕ) (lazyRep : Bool)
  | grp (idx : ℕ) (a : RE)
  | wb
  | bol
  | eol
  | nla (a : RE)
deriving Repr

/-- Capture list; position `i` holds group `i`'s last captured text. -/
abbrev Caps := List (Option (List Char))

def setCap (caps : Caps) (i : ℕ) (v : List Char) : Caps :=
  (caps ++ List.replicate (i + 1 - caps.length) none).set i (some v)

def getCap (caps : Caps) (i : ℕ) : Option (List Char) := caps.getD i none

def RE.size : RE → ℕ
  | .emp | .ch _ | .wb | .bol | .eol => 1
  | .seq a b | .alt a b => a.size + b.size + 1
  | .rep a _ _ _ => a.size + 1
  | .grp _ a => a.size + 1
  | .nla a => a.size + 1

def decrOpt : Option ℕ → Option ℕ
  | none => none
  | some n => some (n - 1)

/-- CPS backtracking matcher.  `prev` is the character just before the
current position (for `\b` and `^`), `acc` the reversed consumed
characters since the match start.  `fuel` strictly decreases on every
recursive call; `reFuel` below over-approximates the call depth. -/
def RE.mtch : ℕ → RE → Option Char → List Char → List Char → Caps →
    (Option Char → List Char → List Char → Caps → Option (List Char × Caps)) →
    Option (List Char × Caps)
  | 0, _, _, _, _, _, _ => none
  | fuel + 1, re, prev, rest, acc, caps, k =>
    match re with
    | .emp => k prev rest acc caps
    | .ch cc =>
      match rest with
      | [] => none
      | c :: rs => if cc.memb c then k (some c) rs (c :: acc) caps else none
    | .seq a b =>
      RE.mtch fuel a prev rest acc caps fun p r ac cp => RE.mtch fuel b p r ac cp k
    | .alt a b =>
      match RE.mtch fuel a prev rest acc caps k with
      | some res => some res
      | none => RE.mtch fuel b prev rest acc caps k
    | .rep a lo hi lz =>
      match lo with
      | n + 1 =>
        RE.mtch fuel a prev rest acc caps fun p r ac cp =>
          RE.mtch fuel (.rep a n (decrOpt hi) lz) p r ac cp k
      | 0 =>
        match hi with
        | some 0 => k prev rest acc caps
        | _ =>
          if lz then
            match k prev rest acc caps with
            | some res => some res
            | none =>
              RE.mtch fuel a prev rest acc caps fun p r ac cp =>
                if r.length = rest.length then k p r ac cp
                else RE.mtch fuel (.rep a 0 (decrOpt hi) lz) p r ac cp k
          else
            match RE.mtch fuel a prev rest acc caps (fun p r ac cp =>
                if r.length = rest.length then k p r ac cp
                else RE.mtch fuel (.rep a 0 (decrOpt hi) lz) p r ac cp k) with
            | some res => some res
            | none => k prev rest acc caps
    | .grp i a =>
      RE.mtch fuel a prev rest acc caps fun p r ac cp =>
        k p r ac (setCap cp i ((ac.take (ac.length - acc.length)).reverse))
    | .wb =>
      let wl := match prev with | none => false | some c => jsIsWord c
      let wr := match rest with | [] => false | c :: _ => jsIsWord c
      if wl != wr then k prev rest acc caps else none
    | .bol => if prev = none then k prev rest acc caps else none
    | .eol => if rest = [] then k prev rest acc caps else none
    | .nla a =>
      match RE.mtch fuel a prev rest acc caps (fun _ _ ac cp => some (ac, cp)) with
      | some _ => none
      | none => k prev rest acc caps

/-- Generous fuel bound for `RE.mtch` on an input of length `n`. -/
def reFuel (re : RE) (n : ℕ) : ℕ := (n + 4) * (RE.size re + 4) * 4 + 64

/-- Leftmost search: try a match at each position in turn.
Returns `(start index, matched text, captures)`. -/
def reSearchAux : RE → ℕ → Option Char → List Char → ℕ → Option (ℕ × List Char × Caps)
  | re, fuel, prev, rest, idx =>
    match RE.mtch fuel re prev rest [] [] (fun _ _ ac cp => some (ac, cp)) with
    | some (ac, cp) => some (idx, ac.reverse, cp)
    | none =>
      match rest with
      | [] => none
      | c :: rs => reSearchAux re fuel (some c) rs (idx + 1)

/-- JS `str.match(re)` / `re.exec(str)` for a non-global regex. -/
def reSearch (re : RE) (s : List Char) : Option (ℕ × List Char × Caps) :=
  reSearchAux re (reFuel re s.length) none s 0

/-- JS `re.test(str)` (also the truthiness of `str.match(re)`). -/
def reTest (re : RE) (s : List Char) : Bool := (reSearch re s).isSome

/-- JS `str.match(re)` with the `g` flag: the list of full matches. -/
def reFindAllAux : ℕ → RE → Option Char → List Char → List (List Char)
  | 0, _, _, _ => []
  | fuel + 1, re, prev, rest =>
    match reSearchAux re (reFuel re rest.length) prev rest 0 with
    | none => []
    | some (idx, m, _) =>
      if m.length = 0 then
        match rest.drop idx with
        | [] => [m]
        | c :: rs => m :: reFindAllAux fuel re (some c) rs
      else
        m :: reFindAllAux fuel re ((rest.take (idx + m.length)).getLast?)
              (rest.drop (idx + m.length))

def reFindAll (re : RE) (s : List Char) : List (List Char) :=
  reFindAllAux (s.length + 1) re none s

/-- JS `str.replace(re, tmpl)` with the `g` flag; `tmpl` receives the
full match and the captures (modelling `$1`-style templates and
replacement functions). -/
def reReplaceAux : ℕ → RE → (List Char → Caps → List Char) → Option Char → List Char →
    List Char
  | 0, _, _, _, rest => rest
  | fuel + 1, re, tmpl, prev, rest =>
    match reSearchAux re (reFuel re rest.length) prev rest 0 with
    | none => rest
    | some (idx, m, cp) =>
      let pre := rest.take idx
      if m.length = 0 then
        match rest.drop idx with
        | [] => pre ++ tmpl m cp
        | c :: rs => pre ++ tmpl m cp ++ [c] ++ reReplaceAux fuel re tmpl (some c) rs
      else
        pre ++ tmpl m cp ++
          reReplaceAux fuel re tmpl ((rest.take (idx + m.length)).getLast?)
            (rest.drop (idx + m.length))

def reReplace (re : RE) (tmpl : List Char → Caps → List Char) (s : List Char) : List Char :=
  reReplaceAux (s.length + 1) re tmpl none s

/-- JS `str.replace(re, tmpl)` without the `g` flag: first match only. -/
def reReplaceOne (re : RE) (tmpl : List Char → Caps → List Char) (s : List Char) : List Char :=
  match reSearch re s with
  | none => s
  | some (idx, m, cp) => s.take idx ++ tmpl m cp ++ s.drop (idx + m.length)

/-- JS `str.split(re)` (no captures in the separator, as used here). -/
def reSplitAux : ℕ → RE → Option Char → List Char → List (List Char)
  | 0, _, _, rest => [rest]
  | fuel + 1, re, prev, rest =>
    match reSearchAux re (reFuel re rest.length) prev rest 0 with
    | none => [rest]
    | some (idx, m, _) =>
      -- the only split pattern in the source, `/\s{2,}/`, never matches empty
      if m.length = 0 then [rest]
      else
        rest.take idx ::
          reSplitAux fuel re ((rest.take (idx + m.length)).getLast?)
            (rest.drop (idx + m.length))

def reSplit (re : RE) (s : List Char) : List (List Char) :=
  reSplitAux (s.length + 1) re none s

/-! ### Regex builder helpers -/

def cls (l : List (Char × Char)) : RE := .ch ⟨l, false⟩
def ncls (l : List (Char × Char)) : RE := .ch ⟨l, true⟩
def onec (c : Char) : RE := .ch ⟨[(c, c)], false⟩
/-- One character, ASCII case-insensitively (the `i` flag). -/
def chri (c : Char) : RE :=
  let lo := jsLowerChar c
  let up := if 'a' ≤ lo && lo ≤ 'z' then Char.ofNat (lo.toNat - 32) else lo
  .ch ⟨[(lo, lo), (up, up)], false⟩
/-- `\d` -/
def rD : RE := cls [('0', '9')]
/-- `\w` -/
def rW : RE := cls [('a', 'z'), ('A', 'Z'), ('0', '9'), ('_', '_')]
/-- `\s` (the JS whitespace characters of `jsIsWs`) -/
def rS : RE := cls [(' ', ' '), ('\t', '\t'), ('\n', '\n'), ('\x0b', '\x0b'),
  ('\x0c', '\x0c'), ('\r', '\r'), (' ', ' '), ('﻿', '﻿')]
/-- `.` (anything but line terminators) -/
def rDot : RE := ncls [('\n', '\n'), ('\r', '\r'), (Char.ofNat 0x2028, Char.ofNat 0x2028), (Char.ofNat 0x2029, Char.ofNat 0x2029)]
def rlit (s : String) : RE := (s.data.map onec).foldr .seq .emp
def rliti (s : String) : RE := (s.data.map chri).foldr .seq .emp
def rseq (l : List RE) : RE := l.foldr .seq .emp
def ralt : List RE → RE
  | [] => .ch ⟨[], false⟩
  | [r] => r
  | r :: rs => .alt r (ralt rs)
def ropt (r : RE) : RE := .rep r 0 (some 1) false
def rstar (r : RE) : RE := .rep r 0 none false
def rstarL (r : RE) : RE := .rep r 0 none true
def rplus (r : RE) : RE := .rep r 1 none false
def rcnt (r : RE) (n : ℕ) : RE := .rep r n (some n) false
def rbetween (r : RE) (lo hi : ℕ) : RE := .rep r lo (some hi) false
def ratleast (r : RE) (n : ℕ) : RE := .rep r n none false

/-- First group of `caps`, etc.; missing groups default to the empty string
(every use below reads a group that the pattern always captures). -/
def cap (cp : Caps) (i : ℕ) : List Char := (getCap cp i).getD []

/-- `0 < x` on an optional number; `none` models `NaN`, and in JS every
comparison with `NaN` is false. -/
def gt0 : Option ℚ → Bool
  | some v => decide (0 < v)
  | none => false

/-- `.replace(/[$,\s]/g, "")` — a single-character class replaced by the
empty string is a filter. -/
def stripDollarCommaWs (s : List Char) : List Char :=
  s.filter fun c => ¬(c = '$' ∨ c = ',' ∨ jsIsWs c)

/-- `.replace(/,/g, '')` -/
def stripCommas (s : List Char) : List Char := s.filter fun c => c ≠ ','

/-- `.replace(/[£,]/g, '')` -/
def stripPoundCommas (s : List Char) : List Char := s.filter fun c => ¬(c = '£' ∨ c = ',')

/-- `.replace(/\s+/g, " ")` -/
def collapseWs (s : List Char) : List Char := reReplace (rplus rS) (fun _ _ => [' ']) s

/-- The month-abbreviation alternation `(?:Jan|Feb|…|Dec)`; every
occurrence in the source is under the `i` flag, so the letter case of the
literals (title case in some regexes, upper case in NatWest's) is
irrelevant. -/
def reMon : RE :=
  ralt (["Jan", "Feb", "Mar", "Apr", "May", "Jun", "Jul", "Aug", "Sep", "Oct",
    "Nov", "Dec"].map rliti)

/-- `[\/\-]` -/
def reSlashDash : RE := cls [('/', '/'), ('-', '-')]

/-- `[\d,]` -/
def reDigitComma : RE := cls [('0', '9'), (',', ',')]

/-! ### The emission guards shared by the parsers.

Every parser pushes a record through one of these small helpers, which
mirror the guards at the source's `transactions.push` sites. -/

/-- `if (amount > 0 && desc) { transactions.push({ … }) }` — the guard of
the lenient, columnar, NatWest, Nationwide and Santander emission sites
(a truthy JS string is a non-empty one). -/
def emitGuard (date desc : List Char) (amount : ℚ) (balance : Option ℚ)
    (typ : List Char) : Option Transaction :=
  if 0 < amount ∧ desc ≠ [] then some ⟨date, desc, amount, balance, some typ⟩
  else none

/-- The Nationwide variant, where the amount may be `NaN` (`none`); the
JS guard `amount > 0` is false on `NaN`. -/
def emitGuardOpt (date desc : List Char) (amount : Option ℚ) (balance : Option ℚ)
    (typ : List Char) : Option Transaction :=
  if gt0 amount ∧ desc ≠ [] then
    some ⟨date, desc, amount.getD 0, balance, some typ⟩
  else none

/-- The Monzo guard `if (description && amount >= 0)` (lines 615–623):
zero amounts pass. -/
def monzoEmit (date desc : List Char) (amount : ℚ) (balance : Option ℚ)
    (typ : List Char) : Option Transaction :=
  if desc ≠ [] ∧ 0 ≤ amount then some ⟨date, desc, amount, balance, some typ⟩
  else none

/-- The `brought_forward` records pushed by the NatWest (lines 704–710),
Nationwide (lines 1014–1020) and Santander (lines 1218–1224) opening-
balance paths: `amount: 0`, `type: 'brought_forward'`. -/
def mkBroughtForward (date : List Char) (balance : Option ℚ) : Transaction :=
  ⟨date, "BROUGHT FORWARD".data, 0, balance, some "brought_forward".data⟩

/-- The strict generic tier's emission (lines 199–229): `continue` on a
zero amount, then push with the `"Transaction"` description fallback. -/
def genericEmitRecord (dm desc : List Char) (amount : ℚ) (balance : Option ℚ)
    (typ : List Char) : Option Transaction :=
  if amount = 0 then none
  else some ⟨dm, (if desc = [] then "Transaction".data else desc), amount, balance,
    some typ⟩

/-! ## `PDFParser.isLikelyScannedPDF` (pdfParser.ts lines 60–83) -/

/-- The number of characters of `text` matching `/[a-zA-Z0-9]/g`
(`alphanumericCount`; counted over the untrimmed text, as in the source). -/
def alnumCount (text : List Char) : ℕ := (text.filter fun c => jsIsWord c && c ≠ '_').length

/-- `isLikelyScannedPDF(text, numPages)`.

* `textLength < expectedTextLength * 0.2` with `expectedTextLength =
  numPages * 1000`: for every `numPages` with `200 * numPages < 2^53` the
  IEEE double `fl(numPages * 1000 * fl(0.2))` is exactly `200 * numPages`
  (the rounding error `200 * numPages * 2^-54` is below half an ulp), so
  the comparison is exactly `textLength * 5 < numPages * 1000`.
* `alphanumericRatio < 0.5` is `alphanumericCount / textLength < 0.5`.
  When `textLength = 0` the text is all whitespace, so the count is `0`
  and the ratio is `NaN`; `NaN < 0.5` is false.  Otherwise the double
  division decides `< 0.5` exactly (a tie would force
  `2 * count = textLength`, i.e. a ratio of exactly `0.5`). -/
def isLikelyScannedPDF (text : List Char) (numPages : ℕ) : Bool :=
  let textLength := (jsTrim text).length
  if textLength * 5 < numPages * 1000 then true
  else if textLength = 0 then false  -- NaN ratio: `NaN < 0.5` is false
  else if alnumCount text * 2 < textLength then true
  else false

/-! ## The strict generic parser: `extractTransactions` body
(pdfParser.ts lines 113–241, after the institution dispatch). -/

/-- `/\b(\d{1,2}[\/\-]\d{1,2}[\/\-]\d{2,4})\b/` -/
def datePat1 : RE :=
  rseq [.wb, .grp 1 (rseq [rbetween rD 1 2, reSlashDash, rbetween rD 1 2,
    reSlashDash, rbetween rD 2 4]), .wb]

/-- `/\b(\d{4}[\/\-]\d{1,2}[\/\-]\d{1,2})\b/` -/
def datePat2 : RE :=
  rseq [.wb, .grp 1 (rseq [rcnt rD 4, reSlashDash, rbetween rD 1 2,
    reSlashDash, rbetween rD 1 2]), .wb]

/-- `/\b(\w{3}\s+\d{1,2},?\s+\d{4})\b/i` -/
def datePat3 : RE :=
  rseq [.wb, .grp 1 (rseq [rcnt rW 3, rplus rS, rbetween rD 1 2, ropt (onec ','),
    rplus rS, rcnt rD 4]), .wb]

/-- `/\b(\d{2}\/\d{2}\/\d{4})\b/` -/
def datePat4 : RE :=
  rseq [.wb, .grp 1 (rseq [rcnt rD 2, onec '/', rcnt rD 2, onec '/', rcnt rD 4]), .wb]

/-- `/\b(\d{1,2}-\w{3}-\d{2,4})\b/i` -/
def datePat5 : RE :=
  rseq [.wb, .grp 1 (rseq [rbetween rD 1 2, onec '-', rcnt rW 3, onec '-',
    rbetween rD 2 4]), .wb]

def genericDatePatterns : List RE := [datePat1, datePat2, datePat3, datePat4, datePat5]

/-- `/(?:[-+]?\s*)?(?:\$|USD)?\s*([\d,]+\.?\d{0,2})/g` (`amountPattern`). -/
def genericAmountPat : RE :=
  rseq [ropt (rseq [ropt (cls [('-', '-'), ('+', '+')]), rstar rS]),
    ropt (.alt (rlit "$") (rlit "USD")), rstar rS,
    .grp 1 (rseq [rplus reDigitComma, ropt (onec '.'), rbetween rD 0 2])]

/-- `/\bdebit\b/i` -/
def reWordDebit : RE := rseq [.wb, rliti "debit", .wb]
/-- `/\bdr\b/i` -/
def reWordDr : RE := rseq [.wb, rliti "dr", .wb]
/-- `/\bcredit\b/i` -/
def reWordCredit : RE := rseq [.wb, rliti "credit", .wb]
/-- `/\bcr\b/i` -/
def reWordCr : RE := rseq [.wb, rliti "cr", .wb]
/-- `/\s{2,}/` -/
def reWs2 : RE := ratleast rS 2

/-- `for (const pattern of datePatterns) { dateMatch = line.match(pattern); … }` -/
def firstPatMatch : List RE → List Char → Option (ℕ × List Char × Caps)
  | [], _ => none
  | p :: ps, s =>
    match reSearch p s with
    | some m => some m
    | none => firstPatMatch ps s

/-- Lines 188–197: the first amount token whose cleaned form parses to a
number `> 0` (`amount` stays `0` when none does). -/
def firstPositiveAmount : List (List Char) → ℚ
  | [] => 0
  | amt :: rest =>
    match jsParseFloat (stripDollarCommaWs amt) with
    | some v => if 0 < v then v else firstPositiveAmount rest
    | none => firstPositiveAmount rest

/-- The candidate-extraction part of the `extractTransactions` loop body
(lines 125–178): skip short/header lines, find a date and the amount
tokens, cut out the description.  Returns
`(dateMatch[0], description, trimmed line, amounts)`; `none` models the
`continue`s. -/
def genericCandidate (line0 : List Char) :
    Option (List Char × List Char × List Char × List (List Char)) :=
  let line := jsTrim line0
  if line = [] ∨ line.length < 10 then none
  else if jsIncludes (jsLower line) "date".data ∧
      jsIncludes (jsLower line) "description".data ∧
      jsIncludes (jsLower line) "amount".data then none
  else
    match firstPatMatch genericDatePatterns line with
    | none => none
    | some (_, dm, _) =>
      let amounts := reFindAll genericAmountPat line
      if amounts = [] then none
      else
        let dateIndex := (jsIndexOf line dm).getD 0
        let firstAmountIndex := (jsIndexOf line (amounts.headD [])).getD 0
        let description := jsTrim (jsSubstring line (dateIndex + dm.length) firstAmountIndex)
        let description := jsTrim (collapseWs description)
        let description :=
          if description = [] ∧ dm.length + 10 < line.length then
            let parts := reSplit reWs2 line
            if 2 ≤ parts.length then parts.getD 1 [] else description
          else description
        some (dm, description, line, amounts)

/-- The loop body of `extractTransactions` for a single line
(lines 125–230): the candidate above, then the debit/credit keyword
heuristics, amount and balance extraction, and the guarded emission. -/
def genericProcessLine (line0 : List Char) : Option Transaction :=
  match genericCandidate line0 with
  | none => none
  | some (dm, description, line, amounts) =>
    let hasDebit := reTest reWordDebit line ∨ reTest reWordDr line
    let hasCredit := reTest reWordCredit line ∨ reTest reWordCr line
    let amount := firstPositiveAmount amounts
    -- `if (isNaN(amount) || amount === 0) continue;` is inside
    -- `genericEmitRecord`; `amount` is never `NaN` here
    let typ : List Char :=
      if hasDebit ∨ jsIncludes line "-".data then "debit".data
      else if hasCredit ∨ jsIncludes line "+".data then "credit".data
      else if amount < 1000 then "debit".data else "credit".data
    let balance : Option ℚ :=
      if 1 < amounts.length then
        match jsParseFloat (stripDollarCommaWs (amounts.getLastD [])) with
        | some b => if b ≠ amount then some b else none
        | none => none
      else none
    genericEmitRecord dm description amount balance typ

/-! ## The lenient generic parser: `extractTransactionsLenient`
(pdfParser.ts lines 244–384). -/

/-- Lines 252–263: the transaction-section header test (`&&` binds
tighter than `||` in JS). -/
def lenientHeaderLine (line : List Char) : Bool :=
  let l := jsLower line
  jsIncludes l "your transactions".data ∨
  (jsIncludes l "transaction".data ∧ jsIncludes l "date".data) ∨
  (jsIncludes l "date".data ∧ jsIncludes l "description".data)

def findHeaderIdxAux : List (List Char) → ℕ → ℕ
  | [], _ => 0
  | l :: ls, i => if lenientHeaderLine l then i else findHeaderIdxAux ls (i + 1)

/-- `transactionSectionStart` (0 when no header line is found). -/
def findHeaderIdx (lines : List (List Char)) : ℕ :=
  if lines.any lenientHeaderLine then findHeaderIdxAux lines 0 else 0

def joinNl : List (List Char) → List Char
  | [] => []
  | [l] => l
  | l :: ls => l ++ '\n' :: joinNl ls

/-- Lines 267–270: columnar-format detection over the 20 sample lines. -/
def isColumnarFormat (lines : List (List Char)) (start : ℕ) : Bool :=
  let sampleLines := jsLower (joinNl ((lines.drop start).take 20))
  jsIncludes sampleLines "date\n".data ∨ jsIncludes sampleLines "date.".data ∨
  (jsIncludes sampleLines "description".data ∧ jsIncludes sampleLines "type".data)

/-- Lines 285–292: header/footer noise skip of the lenient loop. -/
def lenientSkip (line : List Char) : Bool :=
  let l := jsLower line
  jsIncludes l "page".data ∨ jsIncludes l "column".data ∨
  jsIncludes l "sort code".data ∨ jsIncludes l "balance on".data ∨
  (jsIncludes l "money in".data ∧ jsIncludes l "money out".data)

/-- `/\b(\d{1,2}\s+(?:Jan|…|Dec)\s+\d{2,4}|\d{1,2}[\/\-]\d{1,2}[\/\-]\d{2,4})\b/i` -/
def lenientDatePat : RE :=
  rseq [.wb, .grp 1 (.alt
    (rseq [rbetween rD 1 2, rplus rS, reMon, rplus rS, rbetween rD 2 4])
    (rseq [rbetween rD 1 2, reSlashDash, rbetween rD 1 2, reSlashDash,
      rbetween rD 2 4])), .wb]

/-- `/\b(\d{1,3}(?:,\d{3})*(?:\.\d{2})?)\b/g` -/
def lenientAmountPat : RE :=
  rseq [.wb, .grp 1 (rseq [rbetween rD 1 3, rstar (rseq [onec ',', rcnt rD 3]),
    ropt (rseq [onec '.', rcnt rD 2])]), .wb]

/-- `/\b(TFR|DDR|DEB|CR|SO|BP|FPI|CHQ)\b/gi` -/
def txnCodePat : RE :=
  rseq [.wb, .grp 1 (ralt (["TFR", "DDR", "DEB", "CR", "SO", "BP", "FPI",
    "CHQ"].map rliti)), .wb]

/-- Lines 353–366: the shared money-in/money-out decision of the lenient
parser (`moneyIn` wins when both are set). -/
def lenientResolve (moneyIn moneyOut : ℚ) : ℚ × List Char :=
  if 0 < moneyIn ∧ moneyOut = 0 then (moneyIn, "credit".data)
  else if 0 < moneyOut ∧ moneyIn = 0 then (moneyOut, "debit".data)
  else if 0 < moneyIn then (moneyIn, "credit".data)
  else (0, "debit".data)

/-- The candidate-extraction part of the lenient loop body
(lines 280–351): noise skip, date anchor, amount tokens, description
cleanup, and the positional `moneyIn`/`moneyOut`/`balance` assignment.
Returns `(dateMatch[0], description, moneyIn, moneyOut, balance)`. -/
def lenientCandidate (line0 : List Char) :
    Option (List Char × List Char × ℚ × ℚ × ℚ) :=
  let line := jsTrim line0
  if line = [] then none
  else if lenientSkip line then none
  else
    match reSearch lenientDatePat line with
    | none => none
    | some (_, dm, _) =>
      let dateIndex := (jsIndexOf line dm).getD 0
      let afterDate := jsTrim (jsSubstringFrom line (dateIndex + dm.length))
      let amountMatches := reFindAll lenientAmountPat afterDate
      if amountMatches = [] then none
      else
        let firstAmountIndex := (jsIndexOf afterDate (amountMatches.headD [])).getD 0
        let description := jsTrim (jsSubstring afterDate 0 firstAmountIndex)
        let description :=
          jsTrim (collapseWs (reReplace txnCodePat (fun _ _ => []) description))
        let description :=
          if description = [] ∨ description.length < 2 then "Transaction".data
          else description
        let amount1 := (jsParseFloat (stripCommas (amountMatches.getD 0 []))).getD 0
        let (moneyIn, moneyOut, balance) : ℚ × ℚ × ℚ :=
          if amountMatches.length = 1 then
            if jsIncludes (jsLower line) "blank".data then (0, amount1, 0)
            else (amount1, 0, 0)
          else if amountMatches.length = 2 then
            let amount2 := (jsParseFloat (stripCommas (amountMatches.getD 1 []))).getD 0
            (amount1, 0, amount2)
          else
            let amount2 := (jsParseFloat (stripCommas (amountMatches.getD 1 []))).getD 0
            let amount3 := (jsParseFloat (stripCommas (amountMatches.getD 2 []))).getD 0
            (amount1, amount2, amount3)
        some (dm, description, moneyIn, moneyOut, balance)

/-- The loop body of `extractTransactionsLenient` for one line
(lines 280–377): the candidate above, then `lenientResolve` and the
guarded emission (lines 353–376). -/
def lenientProcessLine (line0 : List Char) : Option Transaction :=
  match lenientCandidate line0 with
  | none => none
  | some (dm, description, moneyIn, moneyOut, balance) =>
    let p := lenientResolve moneyIn moneyOut
    emitGuard dm description p.1 (if 0 < balance then some balance else none) p.2

/-! ## The columnar parser: `extractTransactionsColumnar`
(pdfParser.ts lines 387–527). -/

/-- Lines 392–401: skip the columnar header rows. -/
def columnarHeaderRow (line : List Char) : Bool :=
  let l := jsLower line
  jsIncludes l "column".data ∨ jsIncludes l "date.".data ∨
  jsIncludes l "description.".data ∨ jsIncludes l "type.".data ∨
  jsIncludes l "money in".data ∨ jsIncludes l "money out".data ∨
  jsIncludes l "balance".data

def columnarSkipHeader : ℕ → List (List Char) → ℕ → ℕ
  | 0, _, i => i
  | fuel + 1, lines, i =>
    if h : i < lines.length then
      if columnarHeaderRow (lines.get ⟨i, h⟩) then columnarSkipHeader fuel lines (i + 1)
      else i
    else i

/-- `/\b(\d{1,2}\s+(?:Jan|…|Dec)\s+\d{2,4})\b/i` (the columnar date value). -/
def columnarDatePat : RE :=
  rseq [.wb, .grp 1 (rseq [rbetween rD 1 2, rplus rS, reMon, rplus rS,
    rbetween rD 2 4]), .wb]

/-- Lines 474–486: the columnar money-in/money-out decision. -/
def columnarResolve (moneyIn moneyOut : ℚ) : ℚ × List Char :=
  if 0 < moneyIn ∧ moneyOut = 0 then (moneyIn, "credit".data)
  else if 0 < moneyOut ∧ moneyIn = 0 then (moneyOut, "debit".data)
  else if 0 < moneyIn then (moneyIn, "credit".data)
  else if 0 < moneyOut then (moneyOut, "debit".data)
  else (0, "debit".data)

/-- The inner label/value walk (lines 429–468).  State:
`(description, moneyIn, moneyOut, balance)`; returns the final state and
`j`.  The walk runs `while (j < i + 20 && j < lines.length)`. -/
def columnarFields : ℕ → List (List Char) → ℕ → ℕ →
    (List Char × ℚ × ℚ × ℚ) → (List Char × ℚ × ℚ × ℚ) × ℕ
  | 0, _, _, j, st => (st, j)
  | fuel + 1, lines, iBound, j, (description, moneyIn, moneyOut, balance) =>
    if j < iBound ∧ j < lines.length then
      let label := jsLower (jsTrim (lines.getD j []))
      let value := jsTrim (lines.getD (j + 1) [])
      if label = "description".data ∨ label = "description.".data then
        columnarFields fuel lines iBound (j + 2) (value, moneyIn, moneyOut, balance)
      else if label = "type".data ∨ label = "type.".data then
        columnarFields fuel lines iBound (j + 2) (description, moneyIn, moneyOut, balance)
      else if jsIncludes label "money in".data then
        let amount := jsParseFloat (stripCommas value)
        let moneyIn := match amount with | some v => v | none => moneyIn
        columnarFields fuel lines iBound (j + 2) (description, moneyIn, moneyOut, balance)
      else if jsIncludes label "money out".data then
        let moneyOut :=
          if jsLower value ≠ "blank".data then
            match jsParseFloat (stripCommas value) with
            | some v => v
            | none => moneyOut
          else moneyOut
        columnarFields fuel lines iBound (j + 2) (description, moneyIn, moneyOut, balance)
      else if jsIncludes label "balance".data then
        let balance :=
          if jsLower value ≠ "blank".data ∧ jsLower value ≠ [] then
            match jsParseFloat (jsTrim (stripPoundCommas value)) with
            | some v => if 0 < v then v else balance
            | none => balance
          else balance
        ((description, moneyIn, moneyOut, balance), j + 2)  -- `break` after Balance
      else if label = "date".data ∨ label = "date.".data then
        ((description, moneyIn, moneyOut, balance), j)      -- next transaction starts
      else
        columnarFields fuel lines iBound (j + 1) (description, moneyIn, moneyOut, balance)
    else ((description, moneyIn, moneyOut, balance), j)

/-- One iteration of the outer `while (i < lines.length - 5)` loop
(lines 408–519), assuming `i + 5 < lines.length`: returns the candidate
`(date, description, moneyIn, moneyOut, balance)` (or `none`) and the
next index. -/
def columnarStep (lines : List (List Char)) (i : ℕ) :
    Option (List Char × List Char × ℚ × ℚ × ℚ) × ℕ :=
  let line1 := jsLower (jsTrim (lines.getD i []))
  if line1 = "date".data ∨ line1 = "date.".data then
    let line2 := jsTrim (lines.getD (i + 1) [])
    match reSearch columnarDatePat line2 with
    | some (_, dm, _) =>
      let ((description, moneyIn, moneyOut, balance), j) :=
        columnarFields 20 lines (i + 20) (i + 2) ([], 0, 0, 0)
      (some (dm, description, moneyIn, moneyOut, balance), j)
    | none => (none, i + 1)
  else (none, i + 1)

def columnarLoop : ℕ → List (List Char) → ℕ → List Transaction
  | 0, _, _ => []
  | fuel + 1, lines, i =>
    if i + 5 < lines.length then
      match columnarStep lines i with
      | (none, n) => columnarLoop fuel lines n
      | (some (dm, description, moneyIn, moneyOut, balance), n) =>
        let p := columnarResolve moneyIn moneyOut
        match emitGuard dm description p.1
            (if 0 < balance then some balance else none) p.2 with
        | some t => t :: columnarLoop fuel lines n
        | none => columnarLoop fuel lines n
    else []

def extractTransactionsColumnar (lines : List (List Char)) (startIndex : ℕ) :
    List Transaction :=
  let i := columnarSkipHeader (lines.length + 1) lines startIndex
  columnarLoop (lines.length + 2) lines i

/-- `extractTransactionsLenient` (lines 244–384). -/
def extractTransactionsLenient (text : List Char) : List Transaction :=
  let lines := jsSplitNl text
  let transactionSectionStart := findHeaderIdx lines
  if isColumnarFormat lines transactionSectionStart then
    extractTransactionsColumnar lines transactionSectionStart
  else
    let startLine := transactionSectionStart + 5
    ((lines.drop startLine).filterMap lenientProcessLine)

/-! ## The Monzo parser: `extractMonzoTransactions`
(pdfParser.ts lines 530–637). -/

/-- Lines 544–545: the transaction-table header test. -/
def monzoHeaderLine (line : List Char) : Bool :=
  (jsIncludes line "Date".data ∨ jsIncludes line "DateDescription".data) ∧
  (jsIncludes line "Amount".data ∨ jsIncludes line "Balance".data)

/-- Lines 552–557: the footer markers ending the transaction section. -/
def monzoFooterLine (line : List Char) : Bool :=
  jsIncludes line "Monzo Bank Limited".data ∨
  jsIncludes line "Registered Office".data ∨
  jsIncludes line "Financial Services Register".data ∨
  jsIncludes line "Sort code:".data

/-- `/^(\d{2}\/\d{2}\/\d{4})(.*)$/` -/
def monzoDatePat : RE :=
  rseq [.bol, .grp 1 (rseq [rcnt rD 2, onec '/', rcnt rD 2, onec '/', rcnt rD 4]),
    .grp 2 (rstar rDot), .eol]

/-- `/^\d{2}\/\d{2}\/\d{4}/` (continuation-line test; on the raw line). -/
def monzoDateStartPat : RE :=
  rseq [.bol, rcnt rD 2, onec '/', rcnt rD 2, onec '/', rcnt rD 4]

/-- `/[-+]?\d+\.\d{2}/g` -/
def monzoNumPat : RE :=
  rseq [ropt (cls [('-', '-'), ('+', '+')]), rplus rD, onec '.', rcnt rD 2]

/-- `/\s*GBR\s*/gi` -/
def gbrPat : RE := rseq [rstar rS, rliti "GBR", rstar rS]

/-- Lines 577–580: append continuation lines; returns the grown
`restOfLine` and the next index `j`. -/
def monzoContinuation : ℕ → List (List Char) → ℕ → List Char → List Char × ℕ
  | 0, _, j, acc => (acc, j)
  | fuel + 1, lines, j, acc =>
    if j < lines.length ∧ jsTrim (lines.getD j []) ≠ [] ∧
        ¬reTest monzoDateStartPat (lines.getD j []) then
      monzoContinuation fuel lines (j + 1) (acc ++ ' ' :: jsTrim (lines.getD j []))
    else (acc, j)

/-- One iteration of the `extractMonzoTransactions` loop for index `i`
(lines 540–632), assuming `i < lines.length`: returns the emission
candidate `(date, description, amount, balance, type)` (or `none`), the
next index, the updated `inTransactionSection`, and whether the loop
`break`s at the footer. -/
def monzoStep (lines : List (List Char)) (i : ℕ) (inSection : Bool) :
    Option (List Char × List Char × ℚ × ℚ × List Char) × ℕ × Bool × Bool :=
  let line := jsTrim (lines.getD i [])
  if monzoHeaderLine line then (none, i + 1, true, false)
  else if inSection ∧ monzoFooterLine line then (none, i, inSection, true)  -- `break`
  else if ¬inSection ∨ line = [] then (none, i + 1, inSection, false)
  else
    match reSearch monzoDatePat line with
    | none => (none, i + 1, inSection, false)
    | some (_, _, cp) =>
      let date := cap cp 1
      let (restOfLine, j) :=
        monzoContinuation (lines.length + 1) lines (i + 1) (cap cp 2)
      let numberMatches := reFindAll monzoNumPat restOfLine
      if 2 ≤ numberMatches.length then
        let amountStr := numberMatches.getD (numberMatches.length - 2) []
        let balanceStr := numberMatches.getD (numberMatches.length - 1) []
        let amount := |(jsParseFloat amountStr).getD 0|
        let balance := (jsParseFloat balanceStr).getD 0
        let typ : List Char :=
          if strStarts "-".data amountStr then "debit".data else "credit".data
        let amountIndex := (jsLastIndexOf restOfLine amountStr).getD 0
        let description := jsTrim (jsSubstring restOfLine 0 amountIndex)
        let description :=
          jsTrim (collapseWs (reReplace gbrPat (fun _ _ => [' ']) description))
        -- `i = j - 1`, then the loop's `i++`
        (some (date, description, amount, balance, typ), j, inSection, false)
      else (none, i + 1, inSection, false)

def monzoLoop : ℕ → List (List Char) → ℕ → Bool → List Transaction
  | 0, _, _, _ => []
  | fuel + 1, lines, i, inSection =>
    if i < lines.length then
      match monzoStep lines i inSection with
      | (_, _, _, true) => []  -- footer `break`
      | (none, n, sec, false) => monzoLoop fuel lines n sec
      | (some (date, description, amount, balance, typ), n, sec, false) =>
        match monzoEmit date description amount (some balance) typ with
        | some t => t :: monzoLoop fuel lines n sec
        | none => monzoLoop fuel lines n sec
    else []

/-- `extractMonzoTransactions` (lines 530–637). -/
def extractMonzoTransactions (text : List Char) : List Transaction :=
  let lines := jsSplitNl text
  monzoLoop (lines.length + 2) lines 0 false

/-! ## The NatWest parser: `extractNatWestTransactions`
(pdfParser.ts lines 640–926). -/

/-- `/^(\d{1,2}\s+(?:JAN|FEB|…|DEC))\s+(.+)/i` (`natWestDatePattern`). -/
def natWestDatePattern : RE :=
  rseq [.bol, .grp 1 (rseq [rbetween rD 1 2, rplus rS, reMon]), rplus rS,
    .grp 2 (rplus rDot)]

/-- `/Period Covered.*?(\d{4})/i` (statement-year extraction; `.` does not
match line terminators, so the year must follow on the same line). -/
def natWestYearPat : RE := rseq [rliti "Period Covered", rstarL rDot, .grp 1 (rcnt rD 4)]

/-- `/(\d{1,2}\s+(?:JAN|…|DEC))\s+.*?BROUGHT FORWARD.*?([\d,]+\.?\d{0,2})/i` -/
def natWestBroughtForwardPat : RE :=
  rseq [.grp 1 (rseq [rbetween rD 1 2, rplus rS, reMon]), rplus rS, rstarL rDot,
    rliti "BROUGHT FORWARD", rstarL rDot,
    .grp 2 (rseq [rplus reDigitComma, ropt (onec '.'), rbetween rD 0 2])]

/-- `/\d{1,3}(?:,\d{3})*(?:\.\d{2})/g` (the NatWest numeric-token regex;
the decimal part is mandatory). -/
def natWestNumPat : RE :=
  rseq [rbetween rD 1 3, rstar (rseq [onec ',', rcnt rD 3]), onec '.', rcnt rD 2]

/-- `/^\d+ of \d+$/` -/
def pageOfPat : RE := rseq [.bol, rplus rD, rlit " of ", rplus rD, .eol]
/-- `/^Page No$/i` -/
def pageNoPat : RE := rseq [.bol, rliti "Page No", .eol]
/-- `/^\d{6,}\s+\d{2}-\d{2}-\d{2}/` -/
def acctSortPat : RE :=
  rseq [.bol, ratleast rD 6, rplus rS, rcnt rD 2, onec '-', rcnt rD 2, onec '-',
    rcnt rD 2]
/-- `/\d+\.\d+%$/` -/
def pctEndPat : RE := rseq [rplus rD, onec '.', rplus rD, onec '%', .eol]
/-- `/^(Card Transaction|Direct Debit|OnLine Transaction|Standing Order|Cash Withdrawal|Automated Credit|Charges)/i` -/
def natWestTxnStartPat : RE :=
  rseq [.bol, .grp 1 (ralt (["Card Transaction", "Direct Debit",
    "OnLine Transaction", "Standing Order", "Cash Withdrawal",
    "Automated Credit", "Charges"].map rliti))]
/-- `/FP\s+\d{2}\/\d{2}\/\d{2}\s+\d+\s+\w+/g` -/
def natWestFpPat : RE :=
  rseq [rlit "FP", rplus rS, rcnt rD 2, onec '/', rcnt rD 2, onec '/', rcnt rD 2,
    rplus rS, rplus rD, rplus rS, rplus rW]
/-- `/\b\d{10,}\b/g` -/
def longDigitsPat : RE := rseq [.wb, ratleast rD 10, .wb]

/-- Lines 666–693: the NatWest noise-line skip. -/
def natWestSkip (line : List Char) : Bool :=
  line = [] ∨
  jsIncludes line "National Westminster Bank".data ∨
  jsIncludes line "Account Name".data ∨
  jsIncludes line "Date Description Paid In".data ∨
  jsIncludes line "RETSTMT".data ∨
  jsIncludes line "Sort Code".data ∨
  jsIncludes line "Statement Date".data ∨
  jsIncludes line "Period Covered".data ∨
  jsIncludes line "Previous Balance".data ∨
  jsIncludes line "Paid In(£)".data ∨
  jsIncludes line "Withdrawn(£)".data ∨
  jsIncludes line "New Balance".data ∨
  jsIncludes line "BIC NWBKGB".data ∨
  jsIncludes line "IBAN GB".data ∨
  jsIncludes line "Overdraft Limit".data ∨
  jsIncludes line "Overdraft Rate".data ∨
  jsIncludes line "Debit interest details".data ∨
  jsIncludes line "Credit interest details".data ∨
  jsIncludes line "Interest Rate".data ∨
  jsIncludes line "AER".data ∨
  jsIncludes line "Welcome to your".data ∨
  jsIncludes line "www.natwest.com".data ∨
  jsIncludes line "Over £".data ∨
  reTest pageOfPat line ∨
  reTest pageNoPat line ∨
  reTest acctSortPat line ∨
  reTest pctEndPat line

/-- Lines 772–783 and 874–881: the two-number credit/debit keyword
decision, from the description text. -/
def natWestCreditKeywords (desc : List Char) : Bool :=
  let lower := jsLower desc
  jsIncludes lower "automated credit".data ∨
  jsIncludes lower "online transaction from".data ∨
  jsIncludes lower "paid in".data

/-- Lines 784–797 and 884–896: the three-number decision
`[paidIn, withdrawn, balance]` — `paidIn` wins when both are non-zero. -/
def natWestResolve3 (paidIn withdrawn : ℚ) : ℚ × List Char :=
  if 0 < paidIn then (paidIn, "credit".data)
  else if 0 < withdrawn then (withdrawn, "debit".data)
  else (0, "debit".data)

/-- Lines 804–808 / 899–903: description cleanup. -/
def natWestCleanDesc (desc : List Char) : List Char :=
  jsTrim (reReplace longDigitsPat (fun _ _ => [])
    (reReplace natWestFpPat (fun _ _ => []) (collapseWs desc)))

/-- Lines 731–750 / 833–852: grow `fullText` with continuation lines
until a new date, footer, or transaction-keyword line; returns the grown
text and `j`. -/
def natWestContinuation : ℕ → List (List Char) → ℕ → List Char → List Char × ℕ
  | 0, _, j, acc => (acc, j)
  | fuel + 1, lines, j, acc =>
    if j < lines.length then
      let nextLine := jsTrim (lines.getD j [])
      if nextLine = [] ∨ reTest natWestDatePattern nextLine ∨
          jsIncludes nextLine "National Westminster Bank".data ∨
          jsIncludes nextLine "Account Name".data ∨
          reTest pageOfPat nextLine then (acc, j)
      else if reTest natWestTxnStartPat nextLine then (acc, j)
      else natWestContinuation fuel lines (j + 1) (acc ++ ' ' :: nextLine)
    else (acc, j)

/-- Lines 764–797 / 866–896: the decision from the parsed numeric
tokens.  Two tokens are `[amount, balance]` with the type from the
credit keywords; three are `[paidIn, withdrawn, balance]` via
`natWestResolve3`; any other count leaves `amount = 0` (no emission). -/
def natWestResolve (amounts : List ℚ) (desc : List Char) : ℚ × List Char :=
  if amounts.length = 2 then
    (amounts.getD 0 0,
      if natWestCreditKeywords desc then "credit".data else "debit".data)
  else if amounts.length = 3 then
    natWestResolve3 (amounts.getD 0 0) (amounts.getD 1 0)
  else (0, "debit".data)

/-- Lines 752–823 / 854–918 common tail: numeric extraction and record
assembly from the aggregated `fullText` (`none` both when there is no
numeric token and when the guard fails; the last token is the balance). -/
def natWestAssemble (date : List Char) (fullText : List Char) : Option Transaction :=
  match reFindAll natWestNumPat fullText with
  | [] => none
  | n0 :: ns =>
    let numbers := n0 :: ns
    let amounts := numbers.map fun n => (jsParseFloat (stripCommas n)).getD 0
    let firstNumberIndex := (jsIndexOf fullText n0).getD 0
    let desc := jsTrim (jsSubstring fullText 0 firstNumberIndex)
    let p := natWestResolve amounts desc
    emitGuard date (natWestCleanDesc desc) p.1 (some (amounts.getLastD 0)) p.2

/-- Whether the dated branch hits `continue` (exactly one numeric token,
lines 798–801), which skips the `i = j - 1` reposition. -/
def natWestOneNumber (fullText : List Char) : Bool :=
  (reFindAll natWestNumPat fullText).length = 1

/-- One iteration of the NatWest loop for index `i` (lines 662–922),
assuming `i < lines.length`: the emission kind (`none` for no emission,
`.inl (date, balance)` for a `BROUGHT FORWARD` record, `.inr (date,
fullText)` for `natWestAssemble`), the next index, and the updated
`currentDate`. -/
def natWestStepKind (lines : List (List Char)) (year : List Char) (i : ℕ)
    (currentDate : List Char) :
    Option ((List Char × Option ℚ) ⊕ (List Char × List Char)) × ℕ × List Char :=
  let line := jsTrim (lines.getD i [])
  if natWestSkip line then (none, i + 1, currentDate)
  else if jsIncludes line "BROUGHT FORWARD".data then
    match reSearch natWestBroughtForwardPat line with
    | some (_, _, cp) =>
      let currentDate := cap cp 1 ++ ' ' :: year
      let balance := jsParseFloat (stripCommas (cap cp 2))
      (some (.inl (currentDate, balance)), i + 1, currentDate)
    | none => (none, i + 1, currentDate)
  else
    match reSearch natWestDatePattern line with
    | some (_, _, cp) =>
      let currentDate := cap cp 1 ++ ' ' :: year
      let fullDate := cap cp 1 ++ ' ' :: year
      let description := jsTrim (cap cp 2)
      let (fullText, j) :=
        natWestContinuation (lines.length + 1) lines (i + 1) description
      if natWestOneNumber fullText then
        -- `continue` (lines 798–801): the `i = j - 1` reposition is skipped
        (none, i + 1, currentDate)
      else (some (.inr (fullDate, fullText)), j, currentDate)
    | none =>
      if currentDate ≠ [] then
        let (fullText, j) :=
          natWestContinuation (lines.length + 1) lines (i + 1) line
        if 2 ≤ (reFindAll natWestNumPat fullText).length then
          (some (.inr (currentDate, fullText)), j, currentDate)
        else (none, j, currentDate)
      else (none, i + 1, currentDate)

/-- The main NatWest loop; state: index `i` and `currentDate`. -/
def natWestLoop : ℕ → List (List Char) → List Char → ℕ → List Char → List Transaction
  | 0, _, _, _, _ => []
  | fuel + 1, lines, year, i, currentDate =>
    if i < lines.length then
      match natWestStepKind lines year i currentDate with
      | (none, n, cd) => natWestLoop fuel lines year n cd
      | (some (.inl (d, b)), n, cd) =>
        mkBroughtForward d b :: natWestLoop fuel lines year n cd
      | (some (.inr (d, ft)), n, cd) =>
        match natWestAssemble d ft with
        | some t => t :: natWestLoop fuel lines year n cd
        | none => natWestLoop fuel lines year n cd
    else []

/-- `extractNatWestTransactions` (lines 640–926). -/
def extractNatWestTransactions (text : List Char) : List Transaction :=
  let statementYear : List Char :=
    match reSearch natWestYearPat text with
    | some (_, _, cp) => cap cp 1
    | none => "2025".data
  let lines := jsSplitNl text
  natWestLoop (lines.length + 2) lines statementYear 0 []

/-! ## The Nationwide parser: `extractNationwideTransactions`
(pdfParser.ts lines 928–1118). -/

/-- `/^(\d{1,2}\s*(?:Jan|…|Dec))\s*(.+)/i` (`nationwideDatePattern`). -/
def nationwideDatePattern : RE :=
  rseq [.bol, .grp 1 (rseq [rbetween rD 1 2, rstar rS, reMon]), rstar rS,
    .grp 2 (rplus rDot)]

/-- `/Statement\s+\d{1,2}\s+\w+\s+(\d{4})/i` (statement-year extraction). -/
def nationwideYearPat : RE :=
  rseq [rliti "Statement", rplus rS, rbetween rD 1 2, rplus rS, rplus rW, rplus rS,
    .grp 1 (rcnt rD 4)]

/-- `/dated\s*(\d{2})\/(\d{2})\/(\d{4})/i` -/
def nationwideDatedPat : RE :=
  rseq [rliti "dated", rstar rS, .grp 1 (rcnt rD 2), onec '/', .grp 2 (rcnt rD 2),
    onec '/', .grp 3 (rcnt rD 4)]

/-- `/dated\s*\d{2}\/\d{2}\/\d{4}([\d,]+\.?\d{0,2})/i` -/
def nationwideAfterDatedPat : RE :=
  rseq [rliti "dated", rstar rS, rcnt rD 2, onec '/', rcnt rD 2, onec '/', rcnt rD 4,
    .grp 1 (rseq [rplus reDigitComma, ropt (onec '.'), rbetween rD 0 2])]

/-- `/[\d,]+\.?\d{0,2}/g` (the Nationwide numeric-token regex; a lone
comma is a valid match and parses to `NaN`). -/
def nationwideNumPat : RE :=
  rseq [rplus reDigitComma, ropt (onec '.'), rbetween rD 0 2]

/-- `/^\d{4}$/` -/
def yearOnlyPat : RE := rseq [.bol, rcnt rD 4, .eol]
/-- `/^Balance$/i` -/
def balanceOnlyPat : RE := rseq [.bol, rliti "Balance", .eol]
/-- `/\bJT bal VW\b/gi` -/
def jtBalVwPat : RE := rseq [.wb, rliti "JT bal VW", .wb]

/-- Lines 953–991: the Nationwide noise-line skip. -/
def nationwideSkip (line : List Char) : Bool :=
  line = [] ∨
  jsIncludes line "Nationwide Building Society".data ∨
  jsIncludes line "FlexDirect".data ∨
  jsIncludes line "Statement no".data ∨
  jsIncludes line "Sort code".data ∨
  jsIncludes line "Account no".data ∨
  jsIncludes line "Start balance".data ∨
  jsIncludes line "End balance".data ∨
  jsIncludes line "£ Out".data ∨
  jsIncludes line "£ In".data ∨
  jsIncludes line "£ Balance".data ∨
  jsIncludes line "Average credit".data ∨
  jsIncludes line "Average debit".data ∨
  jsIncludes line "BIC".data ∨
  jsIncludes line "IBAN".data ∨
  jsIncludes line "Swift".data ∨
  jsIncludes line "Intermediary Bank".data ∨
  jsIncludes line "NAIAGB".data ∨
  jsIncludes line "MIDLGB".data ∨
  jsIncludes line "Prudential Regulation".data ∨
  jsIncludes line "Financial Conduct".data ∨
  jsIncludes line "Head Office".data ∨
  jsIncludes line "DC83".data ∨
  jsIncludes line "DC85".data ∨
  jsIncludes line "Interest, Rates and Fees".data ∨
  jsIncludes line "Summary box".data ∨
  jsIncludes line "AER".data ∨
  jsIncludes line "Gross p.a".data ∨
  jsIncludes line "arranged overdraft".data ∨
  jsIncludes line "overdraft interest".data ∨
  jsIncludes line "SEPA".data ∨
  jsIncludes line "CHAPS".data ∨
  jsIncludes line "SWIFT".data ∨
  jsIncludes line "visa.co.uk".data ∨
  jsIncludes line "nationwide.co.uk".data ∨
  jsIncludes line "Receiving money".data ∨
  jsIncludes line "Sending money".data ∨
  reTest yearOnlyPat line ∨
  reTest balanceOnlyPat line

/-- Lines 1066–1077: the two-number credit-keyword decision. -/
def nationwideCreditKeywords (desc : List Char) : Bool :=
  let lower := jsLower desc
  jsIncludes lower "bank credit".data ∨
  jsIncludes lower "automated credit".data ∨
  jsIncludes lower "credit transfer".data ∨
  jsIncludes lower "paid in".data

/-- Lines 1078–1091: the three-number decision.  Nationwide's token
order is `[out, in, balance]`; the `In` token wins when both are
non-zero.  `none` models a `NaN` token (a lone-comma match). -/
def nationwideResolve3 (out inAmt : Option ℚ) : Option ℚ × List Char :=
  if gt0 inAmt then (inAmt, "credit".data)
  else if gt0 out then (out, "debit".data)
  else (some 0, "debit".data)

def monthNames : List (List Char) :=
  ["Jan", "Feb", "Mar", "Apr", "May", "Jun", "Jul", "Aug", "Sep", "Oct", "Nov",
    "Dec"].map String.data

/-- `parseInt` on the two-digit capture, then `monthNames[parseInt(month) - 1]`
(`"undefined"` when the index is out of range, as JS stringifies it). -/
def nationwideMonthName (month : List Char) : List Char :=
  let idx : ℤ := (digitsVal (month.takeWhile jsIsDigit) : ℤ) - 1
  if 0 ≤ idx ∧ idx < 12 then monthNames.getD idx.toNat "undefined".data
  else "undefined".data

/-- Lines 1057–1091: the decision from the parsed numeric tokens
`(amount, type, balance)`; Nationwide's three-token order is
`[out, in, balance]`.  A single token (balance only) is handled by the
caller (`continue`); other counts leave `amount = 0`. -/
def nationwideResolveAmounts (amounts : List (Option ℚ)) (desc : List Char) :
    Option ℚ × List Char × Option ℚ :=
  if amounts.length = 2 then
    let amount := amounts.getD 0 none
    let balance := amounts.getD 1 none
    if nationwideCreditKeywords desc then (amount, "credit".data, balance)
    else (amount, "debit".data, balance)
  else if amounts.length = 3 then
    let p := nationwideResolve3 (amounts.getD 0 none) (amounts.getD 1 none)
    (p.1, p.2, amounts.getD 2 none)
  else (some 0, "debit".data, some 0)

/-- The classification part of the `extractNationwideTransactions` loop
body for one line (lines 949–1047): `none` for skipped or anchor-free
lines, `.inl (date, balance)` for the `Balance from statement … dated …`
opening-balance line, `.inr (currentDate, desc, amounts)` for a dated
transaction line. -/
def nationwideKind (line0 : List Char) (year : List Char) :
    Option ((List Char × Option ℚ) ⊕ (List Char × List Char × List (Option ℚ))) :=
  let line := jsTrim line0
  if nationwideSkip line then none
  else if jsIncludes line "Balance from statement".data ∧
      jsIncludes line "dated".data then
    match reSearch nationwideDatedPat line with
    | some (_, _, cp) =>
      match reSearch nationwideAfterDatedPat line with
      | some (_, _, cp2) =>
        let balance := jsParseFloat (stripCommas (cap cp2 1))
        let day := cap cp 1
        let month := cap cp 2
        let yr := cap cp 3
        let currentDate := day ++ ' ' :: nationwideMonthName month ++ ' ' :: yr
        some (.inl (currentDate, balance))
      | none => none
    | none => none
  else
    match reSearch nationwideDatePattern line with
    | none => none
    | some (_, _, cp) =>
      let currentDate := cap cp 1 ++ ' ' :: year
      let description := jsTrim (cap cp 2)
      let numbers := reFindAll nationwideNumPat description
      match numbers with
      | [] => none
      | n0 :: _ =>
        let amounts := numbers.map fun n => jsParseFloat (stripCommas n)
        let firstNumberIndex := (jsIndexOf description n0).getD 0
        let desc := jsTrim (jsSubstring description 0 firstNumberIndex)
        some (.inr (currentDate, desc, amounts))

/-- The loop body of `extractNationwideTransactions` for one line
(lines 949–1113); the parser keeps no cross-line state that is ever
read, so one line maps to at most one record. -/
def nationwideProcessLine (line0 : List Char) (year : List Char) : Option Transaction :=
  match nationwideKind line0 year with
  | none => none
  | some (.inl (d, b)) => some (mkBroughtForward d b)
  | some (.inr (currentDate, desc, amounts)) =>
    if amounts.length = 1 then none  -- only a balance: `continue`
    else
      let r := nationwideResolveAmounts amounts desc
      let desc := jsTrim (reReplace jtBalVwPat (fun _ _ => []) (collapseWs desc))
      emitGuardOpt currentDate desc r.1 r.2.2 r.2.1

/-- `extractNationwideTransactions` (lines 928–1118). -/
def extractNationwideTransactions (text : List Char) : List Transaction :=
  let statementYear : List Char :=
    match reSearch nationwideYearPat text with
    | some (_, _, cp) => cap cp 1
    | none => "2025".data
  (jsSplitNl text).filterMap fun l => nationwideProcessLine l statementYear

/-! ## The Santander parser: `extractSantanderTransactions`
(pdfParser.ts lines 1120–1409). -/

/-- `(?:st|nd|rd|th)` under the `i` flag. -/
def reOrdinal : RE := ralt (["st", "nd", "rd", "th"].map rliti)

/-- `/^(\d{1,2}(?:st|nd|rd|th)\s*(?:Jan|…|Dec))(.+)/i` (`santanderDatePattern`). -/
def santanderDatePattern : RE :=
  rseq [.bol, .grp 1 (rseq [rbetween rD 1 2, reOrdinal, rstar rS, reMon]),
    .grp 2 (rplus rDot)]

/-- `/Your account summary for.*?(\d{4})/i` (statement-year extraction). -/
def santanderYearPat : RE :=
  rseq [rliti "Your account summary for", rstarL rDot, .grp 1 (rcnt rD 4)]

/-- `/^(\d{1,2}(?:st|nd|rd|th)\s+(?:Jan|…|Dec))/i` -/
def santanderStartDatePat : RE :=
  rseq [.bol, .grp 1 (rseq [rbetween rD 1 2, reOrdinal, rplus rS, reMon])]

/-- `/from\s+(\d{1,2}(?:st|nd|rd|th))\s+(Jan|Feb|…|Dec)/i` -/
def santanderFromDatePat : RE :=
  rseq [rliti "from", rplus rS, .grp 1 (rseq [rbetween rD 1 2, reOrdinal]),
    rplus rS, .grp 2 reMon]

/-- `/(\d+)(?:st|nd|rd|th)/` (ordinal-suffix removal; non-global). -/
def ordinalStripPat : RE := rseq [.grp 1 (rplus rD), reOrdinal]

/-- `/(?:st|nd|rd|th)/` (non-global). -/
def ordinalOnlyPat : RE := reOrdinal

/-- `/[£]?([\d,]+\.?\d{0,2})$/` (trailing balance of the brought-forward line). -/
def santanderTrailingBalancePat : RE :=
  rseq [ropt (onec '£'), .grp 1 (rseq [rplus reDigitComma, ropt (onec '.'),
    rbetween rD 0 2]), .eol]

/-- `/(\.\d{2})(\d{1,4}\.\d{2})/g` (split concatenated decimals). -/
def concatSplitPat : RE :=
  rseq [.grp 1 (rseq [onec '.', rcnt rD 2]),
    .grp 2 (rseq [rbetween rD 1 4, onec '.', rcnt rD 2])]

/-- `/MANDATE NO\s+\d+(?!\.\d)/gi` (with the negative lookahead). -/
def mandateNoLookaheadPat : RE :=
  rseq [rliti "MANDATE NO", rplus rS, rplus rD, .nla (rseq [onec '.', rD])]

/-- `/MANDATE NO\s+\d+/gi` (the lookahead-free variant of the recovery path). -/
def mandateNoPat : RE := rseq [rliti "MANDATE NO", rplus rS, rplus rD]

/-- `/MANDATE NO \d+/gi` (single literal space; the description cleanup). -/
def mandateNoSpacePat : RE := rseq [rliti "MANDATE NO ", rplus rD]

/-- `/REF\s+[A-Z0-9]+/gi` (under `i`, `[A-Z0-9]` also matches lower case). -/
def refCodePat : RE :=
  rseq [rliti "REF", rplus rS, rplus (cls [('A', 'Z'), ('a', 'z'), ('0', '9')])]

/-- `/\d{2}-\d{2}-\d{4}/g` -/
def dashDatePat : RE :=
  rseq [rcnt rD 2, onec '-', rcnt rD 2, onec '-', rcnt rD 4]

/-- `/ON\s+\d{2}-\d{2}-\d{4}/gi` -/
def onDashDatePat : RE := rseq [rliti "ON", rplus rS, dashDatePat]

/-- `/\d{1,4}\.\d{2}/g` (the Santander numeric-token regex). -/
def santanderNumPat : RE := rseq [rbetween rD 1 4, onec '.', rcnt rD 2]

/-- `/\d+\.\d{2}/g` (the raw-recovery numeric regex). -/
def rawNumPat : RE := rseq [rplus rD, onec '.', rcnt rD 2]

/-- `/[\d,]+\.?\d{0,2}/` (first-number search on the original text). -/
def santanderFirstNumPat : RE := nationwideNumPat

/-- `/^Page number/i` -/
def pageNumberPat : RE := rseq [.bol, rliti "Page number"]
/-- `/^\d{15,}$/` -/
def longNumOnlyPat : RE := rseq [.bol, ratleast rD 15, .eol]
/-- `/^BX\d+/` -/
def bxPat : RE := rseq [.bol, rlit "BX", rplus rD]
/-- `/^%%SSC/` -/
def sscPat : RE := rseq [.bol, rlit "%%SSC"]

/-- Lines 1145–1190: the Santander noise-line skip. -/
def santanderSkip (line : List Char) : Bool :=
  line = [] ∨
  jsIncludes line "Santander UK plc".data ∨
  jsIncludes line "Santander Banking".data ∨
  jsIncludes line "Everyday Current Account".data ∨
  jsIncludes line "Telephone Banking".data ∨
  jsIncludes line "www.santander.co.uk".data ∨
  jsIncludes line "Your account summary for".data ∨
  jsIncludes line "Account name".data ∨
  jsIncludes line "Account number".data ∨
  jsIncludes line "Sort Code".data ∨
  jsIncludes line "Statement number".data ∨
  jsIncludes line "BIC:".data ∨
  jsIncludes line "IBAN:".data ∨
  jsIncludes line "ABBY".data ∨
  jsIncludes line "Total money in".data ∨
  jsIncludes line "Total money out".data ∨
  jsIncludes line "Your balance at close".data ∨
  jsIncludes line "Credit interest rate".data ∨
  jsIncludes line "Online, Mobile and Telephone".data ∨
  jsIncludes line "News and information".data ∨
  jsIncludes line "Keeping your money safe".data ∨
  jsIncludes line "Interest and refunds".data ∨
  jsIncludes line "Important messages".data ∨
  jsIncludes line "compensation arrangements".data ∨
  jsIncludes line "Financial Services Compensation".data ∨
  jsIncludes line "Financial Ombudsman".data ∨
  jsIncludes line "Prudential Regulation".data ∨
  jsIncludes line "Financial Conduct".data ∨
  jsIncludes line "Registered Office".data ∨
  jsIncludes line "Registered Number".data ∨
  jsIncludes line "flame logo".data ∨
  jsIncludes line "AER".data ∨
  jsIncludes line "EAR".data ∨
  jsIncludes line "gross rate".data ∨
  jsIncludes line "Average balance".data ∨
  (jsIncludes line "Money in".data ∧ jsIncludes line "Money out".data) ∨
  jsIncludes line "Money in Money out".data ∨
  jsIncludes line "Date Description Money".data ∨
  jsIncludes line "Your transactions".data ∨
  jsIncludes line "Continued on reverse".data ∨
  jsIncludes line "Why we are paying you".data ∨
  reTest pageNumberPat line ∨
  reTest longNumOnlyPat line ∨
  reTest bxPat line ∨
  reTest sscPat line

/-- Lines 1365–1377: the three-number decision `[moneyIn, moneyOut,
balance]` — `moneyIn` wins when both are non-zero. -/
def santanderResolve3 (moneyIn moneyOut : ℚ) : ℚ × List Char :=
  if 0 < moneyIn then (moneyIn, "credit".data)
  else if 0 < moneyOut then (moneyOut, "debit".data)
  else (0, "debit".data)

/-- Lines 1259–1272: grow `fullText` with continuation lines. -/
def santanderContinuation : ℕ → List (List Char) → ℕ → List Char → List Char × ℕ
  | 0, _, j, acc => (acc, j)
  | fuel + 1, lines, j, acc =>
    if j < lines.length then
      let nextLine := jsTrim (lines.getD j [])
      if nextLine = [] ∨ reTest santanderDatePattern nextLine ∨
          jsIncludes nextLine "Balance carried forward".data ∨
          jsIncludes nextLine "Average balance".data then (acc, j)
      else santanderContinuation fuel lines (j + 1) (acc ++ ' ' :: nextLine)
    else (acc, j)

/-- Lines 1282–1291: number-splitting and cleanup applied to `fullText`
before numeric extraction. -/
def santanderCleanText (fullText : List Char) : List Char :=
  let cleanedText := reReplace concatSplitPat
    (fun _ cp => cap cp 1 ++ ' ' :: cap cp 2) fullText
  reReplace onDashDatePat (fun _ _ => [' '])
    (reReplace dashDatePat (fun _ _ => [' '])
      (reReplace refCodePat (fun _ _ => [' '])
        (reReplace mandateNoLookaheadPat (fun _ _ => [' ']) cleanedText)))

/-- Lines 1316–1326: the raw re-extraction used when only one number
survived cleaning. -/
def santanderRawNumbers (fullText : List Char) : List (List Char) :=
  let cleanForExtraction := reReplace refCodePat (fun _ _ => [' '])
    (reReplace mandateNoPat (fun _ _ => [' ']) fullText)
  let cleanForExtraction := reReplace concatSplitPat
    (fun _ cp => cap cp 1 ++ ' ' :: cap cp 2) cleanForExtraction
  reFindAll rawNumPat cleanForExtraction

/-- Lines 1380–1385: description cleanup. -/
def santanderCleanDesc (desc : List Char) : List Char :=
  jsTrim (reReplace refCodePat (fun _ _ => [])
    (reReplace mandateNoSpacePat (fun _ _ => []) (collapseWs desc)))

/-- Lines 1336–1341: the recovery-path credit keywords. -/
def santanderRawCreditKeywords (desc : List Char) : Bool :=
  let lower := jsLower desc
  jsIncludes lower "faster payments receipt".data ∨
  jsIncludes lower "receipt".data ∨
  jsIncludes lower "credit".data

/-- Lines 1354–1358: the two-number credit keywords. -/
def santanderCreditKeywords (desc : List Char) : Bool :=
  let lower := jsLower desc
  jsIncludes lower "faster payments receipt".data ∨
  jsIncludes lower "credit".data ∨
  jsIncludes lower "payment receipt".data ∨
  jsIncludes lower "receipt ref".data

/-- Lines 1315–1378: the decision from the parsed numeric tokens:
`(amount, balance, type)`.  A single surviving token triggers the raw
re-extraction recovery (lines 1316–1347, `none` when it also fails —
`continue`); two are `[amount, balance]` with the type from the credit
keywords; three are `[moneyIn, moneyOut, balance]` via
`santanderResolve3`; any other count leaves `amount = 0`. -/
def santanderResolveAmounts (amounts : List ℚ) (fullText desc : List Char) :
    Option (ℚ × ℚ × List Char) :=
  if amounts.length = 1 then
    let allNumbers := santanderRawNumbers fullText
    if 2 ≤ allNumbers.length then
      let rawAmounts := allNumbers.map fun n => (jsParseFloat n).getD 0
      let amount := rawAmounts.getD (rawAmounts.length - 2) 0
      let balance := rawAmounts.getD (rawAmounts.length - 1) 0
      let typ := if santanderRawCreditKeywords desc then "credit".data
        else "debit".data
      some (amount, balance, typ)
    else none  -- `continue`
  else if amounts.length = 2 then
    let amount := amounts.getD 0 0
    let balance := amounts.getD 1 0
    let typ := if santanderCreditKeywords desc then "credit".data
      else "debit".data
    some (amount, balance, typ)
  else if amounts.length = 3 then
    let p := santanderResolve3 (amounts.getD 0 0) (amounts.getD 1 0)
    some (p.1, amounts.getD 2 0, p.2)
  else some (0, 0, "debit".data)

/-- Lines 1300–1400: numeric extraction and record assembly from the
aggregated `fullText` of a dated Santander line (`none` when there is no
numeric token, when the recovery gives up, or when the guard fails). -/
def santanderAssemble (currentDate fullText : List Char) : Option Transaction :=
  match reFindAll santanderNumPat (santanderCleanText fullText) with
  | [] => none
  | n0 :: ns =>
    let amounts := (n0 :: ns).map fun n => (jsParseFloat (stripCommas n)).getD 0
    let firstNumberIndex :=
      match reSearch santanderFirstNumPat fullText with
      | some (_, m, _) => (jsIndexOf fullText m).getD 0
      | none => fullText.length
    let desc := jsTrim (jsSubstring fullText 0 firstNumberIndex)
    (santanderResolveAmounts amounts fullText desc).bind fun r =>
      emitGuard currentDate (santanderCleanDesc desc) r.1 (some r.2.1) r.2.2

/-- Whether the one-number recovery's `continue` (line 1346) fires; it
skips the `i = j - 1` reposition (nothing was emitted, so the only
observable difference is the scan position). -/
def santanderOneNumberFail (fullText : List Char) : Bool :=
  (reFindAll santanderNumPat (santanderCleanText fullText)).length = 1 ∧
  (santanderRawNumbers fullText).length < 2

/-- One iteration of the Santander loop for index `i` (lines 1141–1404),
assuming `i < lines.length`: the emission kind (`none`,
`.inl (date, balance)` for `BROUGHT FORWARD`, `.inr (date, fullText)`
for `santanderAssemble`) and the next index. -/
def santanderStepKind (lines : List (List Char)) (year : List Char) (i : ℕ) :
    Option ((List Char × Option ℚ) ⊕ (List Char × List Char)) × ℕ :=
  let line := jsTrim (lines.getD i [])
  if santanderSkip line then (none, i + 1)
  else if jsIncludes line "Balance brought forward".data then
    let balanceDate : List Char :=
      match reSearch santanderStartDatePat line with
      | some (_, _, cp) =>
        reReplaceOne ordinalStripPat (fun _ cp2 => cap cp2 1) (cap cp 1) ++
          ' ' :: year
      | none =>
        match reSearch santanderFromDatePat line with
        | some (_, _, cp) =>
          let day := reReplaceOne ordinalOnlyPat (fun _ _ => []) (cap cp 1)
          day ++ ' ' :: cap cp 2 ++ ' ' :: year
        | none => []
    match reSearch santanderTrailingBalancePat line with
    | some (_, _, cp) =>
      let balance := jsParseFloat (stripCommas (cap cp 1))
      (some (.inl ((if balanceDate ≠ [] then balanceDate else year), balance)), i + 1)
    | none => (none, i + 1)
  else if jsIncludes line "Balance carried forward".data then (none, i + 1)
  else
    match reSearch santanderDatePattern line with
    | none => (none, i + 1)
    | some (_, _, cp) =>
      if jsIncludes line " to ".data ∧ jsIncludes line year then
        (none, i + 1)  -- date-range header
      else
        let dateWithoutYear := cap cp 1
        let normalizedDate :=
          reReplaceOne ordinalStripPat (fun _ cp2 => cap cp2 1) dateWithoutYear
        let currentDate := normalizedDate ++ ' ' :: year
        let description := jsTrim (cap cp 2)
        let (fullText, j) :=
          santanderContinuation (lines.length + 1) lines (i + 1) description
        if santanderOneNumberFail fullText then
          (none, i + 1)  -- `continue` skips `i = j - 1`
        else (some (.inr (currentDate, fullText)), j)

def santanderLoop : ℕ → List (List Char) → List Char → ℕ → List Transaction
  | 0, _, _, _ => []
  | fuel + 1, lines, year, i =>
    if i < lines.length then
      match santanderStepKind lines year i with
      | (none, n) => santanderLoop fuel lines year n
      | (some (.inl (d, b)), n) =>
        mkBroughtForward d b :: santanderLoop fuel lines year n
      | (some (.inr (d, ft)), n) =>
        match santanderAssemble d ft with
        | some t => t :: santanderLoop fuel lines year n
        | none => santanderLoop fuel lines year n
    else []

/-- `extractSantanderTransactions` (lines 1120–1409). -/
def extractSantanderTransactions (text : List Char) : List Transaction :=
  let statementYear : List Char :=
    match reSearch santanderYearPat text with
    | some (_, _, cp) => cap cp 1
    | none => "2025".data
  let lines := jsSplitNl text
  santanderLoop (lines.length + 2) lines statementYear 0

/-! ## The dispatcher `extractTransactions` and `parsePDF`
(pdfParser.ts lines 85–111 and 5–51). -/

/-- The strict generic tier of `extractTransactions` (lines 113–230). -/
def extractTransactionsGeneric (text : List Char) : List Transaction :=
  (jsSplitNl text).filterMap genericProcessLine

/-- `extractTransactions` (lines 85–241): institution dispatch, then the
strict generic tier, falling back to the lenient tier when it finds
nothing. -/
def extractTransactions (text : List Char) : List Transaction :=
  if jsIncludes text "National Westminster Bank".data ∨
      jsIncludes text "NATWEST".data ∨ jsIncludes text "NatWest".data then
    extractNatWestTransactions text
  else if jsIncludes text "Nationwide Building Society".data ∨
      jsIncludes text "FlexDirect".data ∨ jsIncludes text "NAIAGB21".data then
    extractNationwideTransactions text
  else if jsIncludes text "Santander".data ∨ jsIncludes text "ABBYGB2L".data then
    extractSantanderTransactions text
  else if jsIncludes text "Monzo Bank Limited".data ∨
      jsIncludes text "monzo.com".data then
    extractMonzoTransactions text
  else
    let transactions := extractTransactionsGeneric text
    if transactions = [] then extractTransactionsLenient text else transactions

/-- `parsePDF`'s result (lines 5–51), after the external `pdf-parse`
engine has produced `text` and `numPages`.  Metadata is irrelevant to
the claims and omitted. -/
structure PdfParseResult where
  transactions : List Transaction
  rawText : List Char
  needsOCR : Bool
deriving Repr, DecidableEq

/-- `parsePDF` (lines 5–51). -/
def parsePDF (text : List Char) (numPages : ℕ) : PdfParseResult :=
  if isLikelyScannedPDF text numPages then
    ⟨[], text, true⟩
  else
    let transactions := extractTransactions text
    ⟨transactions, text, transactions = [] ∧ text ≠ []⟩

/-! ## The CSV parser: `CSVParser.mapRowToTransaction` and `parseCSV`. -/

/-- A parsed CSV row, as `csv-parser` hands it to `mapRowToTransaction`:
a string-keyed record.  JS object keys are unique; lookup of an absent
key is `undefined` (`none`). -/
abbrev Row := List (List Char × List Char)

def Row.get (row : Row) (key : List Char) : Option (List Char) :=
  (row.find? fun p => p.1 = key).map Prod.snd

/-- JS truthiness of `row[key]`: present and non-empty. -/
def Row.truthy (row : Row) (key : List Char) : Bool :=
  match row.get key with
  | some v => v ≠ []
  | none => false

/-- `row[a] || row[b]` for strings (first truthy operand). -/
def Row.orGet (row : Row) (a b : List Char) : List Char :=
  if row.truthy a then (row.get a).getD [] else (row.get b).getD []

def dateKeys : List (List Char) :=
  ["date", "transaction date", "posting date", "Date", "Transaction Date"].map
    String.data
def descriptionKeys : List (List Char) :=
  ["description", "details", "memo", "Description", "Details", "Memo"].map
    String.data
def amountKeys : List (List Char) :=
  ["amount", "debit", "credit", "Amount", "Debit", "Credit"].map String.data
def balanceKeys : List (List Char) :=
  ["balance", "Balance", "running balance", "Running Balance"].map String.data
def typeKeys : List (List Char) :=
  ["type", "Type", "transaction type", "Transaction Type"].map String.data

/-- `keys.find((key) => row[key] !== undefined)` -/
def findKey (keys : List (List Char)) (row : Row) : Option (List Char) :=
  keys.find? fun k => (row.get k).isSome

/-- `CSVParser.mapRowToTransaction` (csvParser.ts lines 156–218).
`amount` is `Option ℚ` (`none` = `NaN`); it starts at `0`. -/
def mapRowToTransaction (row : Row) : Option Transaction :=
  let date : List Char :=
    match findKey dateKeys row with
    | some k => (row.get k).getD []
    | none => []
  let description : List Char :=
    match findKey descriptionKeys row with
    | some k => (row.get k).getD []
    | none => "Unknown transaction".data
  let (amount, type0) : Option ℚ × Option (List Char) :=
    if row.truthy "debit".data ∨ row.truthy "Debit".data then
      let debitStr := stripDollarCommaWs (row.orGet "debit".data "Debit".data)
      (jsParseFloat debitStr, some "debit".data)
    else if row.truthy "credit".data ∨ row.truthy "Credit".data then
      let creditStr := stripDollarCommaWs (row.orGet "credit".data "Credit".data)
      (jsParseFloat creditStr, some "credit".data)
    else
      match findKey amountKeys row with
      | some k =>
        let amountStr := stripDollarCommaWs ((row.get k).getD [])
        let a := jsParseFloat amountStr
        -- `type = amount < 0 ? "debit" : "credit"; amount = Math.abs(amount)`
        -- (`NaN < 0` is false, so `NaN` gets type `"credit"`)
        (a.map abs, some (if gt0 (a.map Neg.neg) then "debit".data else "credit".data))
      | none => (some 0, none)
  let balance : Option ℚ :=
    match findKey balanceKeys row with
    | some k => jsParseFloat (stripDollarCommaWs ((row.get k).getD []))
    | none => none
  let type1 : Option (List Char) :=
    match type0 with
    | some t => some t
    | none =>
      match findKey typeKeys row with
      | some k => some (jsLower ((row.get k).getD []))
      | none => none
  if date = [] ∨ amount.isNone then none  -- `if (!date || isNaN(amount)) return null`
  else
    some ⟨date, description, amount.getD 0,
      -- `balance: balance && !isNaN(balance) ? balance : undefined`
      (match balance with
       | some b => if b ≠ 0 then some b else none
       | none => none),
      type1⟩

/-- `CSVParser.parseCSV` collects `mapRowToTransaction` over the parsed
rows (lines 126–154); a row mapping to `null` is skipped. -/
def parseCSVRows (rows : List Row) : List Transaction :=
  rows.filterMap mapRowToTransaction

/-! ## `OCRService.cleanOCRText` (ocrService.ts lines 99–136).

The `replacements` record of lines 103–116 is declared but never used by
the code; only the seven `replace` calls below run.  Each is implemented
as a dedicated scanner over the character list, threading the previous
*original* character for `\b` tests (JS scans the original string while
building the output; a global regex continues after the consumed match).
The scanners take the greedy sub-match without backtracking, which is
complete here: in each pattern the token after a greedy run (`\s*`,
`\d+`) can never also continue the run. -/

def boundaryBefore : Option Char → Bool
  | none => true
  | some p => !jsIsWord p

def boundaryAfterL : List Char → Bool
  | [] => true
  | c :: _ => !jsIsWord c

/-- Rule 1: `cleaned.replace(/([£$])\s*[EÃ¢â€š¬]/g, '$1')` — a garbled
letter (or a mojibake byte of `€`) after a currency symbol, with optional
whitespace, collapses to the symbol alone. -/
def ocrCurrencyGarble (c : Char) : Bool :=
  c = 'E' || c = 'Ã' || c = '¢' || c = 'â' || c = '€' || c = 'š' || c = '¬'

/-- Match `\s*[EÃ¢â€š¬]` at the head; returns the rest after the garbled
letter. -/
def ocrRule1Tail : List Char → Option (List Char)
  | [] => none
  | c :: rest =>
    if jsIsWs c then ocrRule1Tail rest
    else if ocrCurrencyGarble c then some rest
    else none

def ocrRule1F : ℕ → List Char → List Char
  | 0, s => s
  | _ + 1, [] => []
  | fuel + 1, c :: rest =>
    if c = '£' || c = '$' then
      match ocrRule1Tail rest with
      | some rest2 => c :: ocrRule1F fuel rest2
      | none => c :: ocrRule1F fuel rest
    else c :: ocrRule1F fuel rest

def ocrRule1 (s : List Char) : List Char := ocrRule1F (s.length + 1) s

/-- Rule 2: `.replace(/\b[O](\d)/g, '0$1')`. -/
def ocrRule2 : Option Char → List Char → List Char
  | prev, 'O' :: d :: rest =>
    if boundaryBefore prev && jsIsDigit d then
      '0' :: d :: ocrRule2 (some d) rest
    else 'O' :: ocrRule2 (some 'O') (d :: rest)
  | _, c :: rest => c :: ocrRule2 (some c) rest
  | _, [] => []

/-- Rule 3: `.replace(/(\d)[O]\b/g, '$10')` (the replacement is group 1
followed by a literal `0` — there is no group 10). -/
def ocrRule3 : List Char → List Char
  | d :: 'O' :: rest =>
    if jsIsDigit d && boundaryAfterL rest then
      d :: '0' :: ocrRule3 rest
    else d :: ocrRule3 ('O' :: rest)
  | c :: rest => c :: ocrRule3 rest
  | [] => []

/-- Rule 4: `.replace(/\b[Il](\d)/g, '1$1')`. -/
def ocrRule4 : Option Char → List Char → List Char
  | prev, c :: d :: rest =>
    if (c = 'I' || c = 'l') && boundaryBefore prev && jsIsDigit d then
      '1' :: d :: ocrRule4 (some d) rest
    else c :: ocrRule4 (some c) (d :: rest)
  | _, [c] => [c]
  | _, [] => []

/-- Rule 5: `.replace(/(\d)[Il]\b/g, '$11')` (group 1 then a literal
`1`; `$11` refers to group 1 because there is no group 11). -/
def ocrRule5 : List Char → List Char
  | d :: c :: rest =>
    if jsIsDigit d && (c = 'I' || c = 'l') && boundaryAfterL rest then
      d :: '1' :: ocrRule5 rest
    else d :: ocrRule5 (c :: rest)
  | c :: rest => c :: ocrRule5 rest
  | [] => []

/-- Rule 6: `.replace(/\b[O](\d{1})\/(\d{2})\/(\d{4})/g, '0$1/$2/$3')`.
(After rule 2 no `\bO<digit>` survives, so this never fires on rule 2's
output, but it is implemented faithfully.) -/
def ocrRule6Try (rest : List Char) : Option (List Char × List Char) :=
  match rest with
  | d1 :: '/' :: d2 :: d3 :: '/' :: d4 :: d5 :: d6 :: d7 :: rest2 =>
    if jsIsDigit d1 && jsIsDigit d2 && jsIsDigit d3 && jsIsDigit d4 &&
        jsIsDigit d5 && jsIsDigit d6 && jsIsDigit d7 then
      some ([d1, '/', d2, d3, '/', d4, d5, d6, d7], rest2)
    else none
  | _ => none

def ocrRule6F : ℕ → Option Char → List Char → List Char
  | 0, _, s => s
  | _ + 1, _, [] => []
  | fuel + 1, prev, 'O' :: rest =>
    if boundaryBefore prev then
      match ocrRule6Try rest with
      | some (body, rest2) => '0' :: body ++ ocrRule6F fuel (some '9') rest2
      | none => 'O' :: ocrRule6F fuel (some 'O') rest
    else 'O' :: ocrRule6F fuel (some 'O') rest
  | fuel + 1, _, c :: rest => c :: ocrRule6F fuel (some c) rest

def ocrRule6 (s : List Char) : List Char := ocrRule6F (s.length + 1) none s

/-- Rule 7: `.replace(/(\d+\.)([SB])(\d)/g, fn)` with `S → 5`, `B → 8`. -/
def ocrRule7Scan (c : Char) (rest : List Char) : Option (List Char × List Char) :=
  if jsIsDigit c then
    let ds := rest.takeWhile jsIsDigit
    match rest.drop ds.length with
    | '.' :: l :: d :: rest2 =>
      if (l = 'S' || l = 'B') && jsIsDigit d then
        some (c :: ds ++ '.' :: (if l = 'S' then '5' else '8') :: [d], rest2)
      else none
    | _ => none
  else none

def ocrRule7F : ℕ → List Char → List Char
  | 0, s => s
  | _ + 1, [] => []
  | fuel + 1, c :: rest =>
    match ocrRule7Scan c rest with
    | some (body, rest2) => body ++ ocrRule7F fuel rest2
    | none => c :: ocrRule7F fuel rest

def ocrRule7 (s : List Char) : List Char := ocrRule7F (s.length + 1) s

/-- `OCRService.cleanOCRText` (lines 99–136): the seven replacements in
source order. -/
def cleanOCRText (text : List Char) : List Char :=
  ocrRule7 (ocrRule6 (ocrRule5 (ocrRule4 none (ocrRule3 (ocrRule2 none
    (ocrRule1 text))))))

/-! ## `UploadController.handleUpload` (uploadController.ts lines 22–144).

The controller's response logic after the file has been parsed.  For a
PDF, *both* branches of `if (pdfResult.needsOCR)` set
`parsedData = pdfResult` — the OCR branch is disabled in the source
(lines 47–56: "OCR is disabled - fix the parser instead!"; the commented
`TODO` would re-enable it) — so no OCR call is ever made and `parsedData`
has no `usedOCR`/`confidence` fields: `parsedData.usedOCR || false` is
`false` and `ocrConfidence` is `undefined`. -/

/-- The JSON response relevant to the claims. -/
inductive UploadResponse where
  /-- `res.status(400).json({ error, rawContent })` (lines 86–93). -/
  | clientError (error : List Char) (rawContentExcerpt : List Char)
  /-- `res.status(200).json({ success: true, …, usedOCR, ocrConfidence })`
  (lines 107–129); only the claim-relevant fields are carried. -/
  | success (transactionCount : ℕ) (usedOCR : Bool) (ocrConfidence : Option ℚ)
deriving Repr, DecidableEq

/-- Lines 77–81: the error message for an empty result. -/
def emptyResultMessage (rawContent : List Char) : List Char :=
  if jsIncludes (jsLower rawContent)
      "there were no transactions during this period".data then
    ("This statement has no transactions. The statement period shows " ++
     "'£0.00 Total deposits' and '£0.00 Total outgoings'. " ++
     "Please upload a statement with transactions.").data
  else
    ("No transactions found in the file. " ++
     "Please check the file format or try a different statement.").data

/-- Lines 74–130: the response assembly shared by the PDF and CSV paths,
from the parsed transactions and the raw content. -/
def respondParsed (transactions : List Transaction) (rawContent : List Char) :
    UploadResponse :=
  if transactions = [] then
    .clientError (emptyResultMessage rawContent) (jsSubstring rawContent 0 500)
  else
    .success transactions.length false none

/-- The PDF path of `handleUpload` (lines 40–61 then 74–130): parse the
extracted text, keep the parse result unchanged in both `needsOCR`
branches, and respond. -/
def handleUploadPdf (text : List Char) (numPages : ℕ) : UploadResponse :=
  let pdfResult := parsePDF text numPages
  let parsedData := pdfResult   -- both branches; no OCR call
  respondParsed parsedData.transactions pdfResult.rawText

/-- The CSV path of `handleUpload` (lines 62–68 then 74–130). -/
def handleUploadCsv (rows : List Row) (rawContent : List Char) : UploadResponse :=
  respondParsed (parseCSVRows rows) rawContent

/-! ## Invariant lemmas

`AmountTypeInv` is the record-level invariant the six guarded parsers
maintain: a non-negative amount that is zero exactly on `brought_forward`
markers, which always carry the description `BROUGHT FORWARD`. -/

def AmountTypeInv (t : Transaction) : Prop :=
  0 ≤ t.amount ∧ (t.amount = 0 ↔ t.type = some "brought_forward".data) ∧
  (t.type = some "brought_forward".data → t.description = "BROUGHT FORWARD".data)

theorem amountTypeInv_of_pos {t : Transaction} (h : 0 < t.amount)
    (hty : t.type = some "credit".data ∨ t.type = some "debit".data) :
    AmountTypeInv t := by
  refine ⟨le_of_lt h, ⟨fun h0 => absurd h0 (ne_of_gt h), fun hbf => ?_⟩, fun hbf => ?_⟩ <;>
    rcases hty with hty | hty <;> rw [hty] at hbf <;> simp_all

theorem amountTypeInv_bf {date balance} :
    AmountTypeInv ⟨date, "BROUGHT FORWARD".data, 0, balance,
      some "brought_forward".data⟩ := by
  refine ⟨le_refl 0, by simp, by simp⟩

theorem firstPositiveAmount_nonneg (l : List (List Char)) :
    0 ≤ firstPositiveAmount l := by
  induction l with
  | nil => simp [firstPositiveAmount]
  | cons a rest ih =>
    rw [firstPositiveAmount]
    cases jsParseFloat (stripDollarCommaWs a) with
    | none => exact ih
    | some v =>
      by_cases hv : 0 < v
      · simpa [hv] using le_of_lt hv
      · simpa [hv] using ih

theorem gt0_getD {o : Option ℚ} (h : gt0 o = true) : 0 < o.getD 0 := by
  cases o with
  | none => simp [gt0] at h
  | some v => simpa [gt0] using h

theorem emitGuard_good {date desc : List Char} {amount : ℚ} {balance : Option ℚ}
    {typ : List Char} {t : Transaction}
    (h : emitGuard date desc amount balance typ = some t) :
    0 < t.amount ∧ t.amount = amount ∧ t.type = some typ ∧ t.description = desc := by
  unfold emitGuard at h
  split at h
  case isTrue hc => cases h; exact ⟨hc.1, rfl, rfl, rfl⟩
  case isFalse => exact Option.noConfusion h

theorem emitGuardOpt_good {date desc : List Char} {amount balance : Option ℚ}
    {typ : List Char} {t : Transaction}
    (h : emitGuardOpt date desc amount balance typ = some t) :
    0 < t.amount ∧ t.type = some typ := by
  unfold emitGuardOpt at h
  split at h
  case isTrue hc => cases h; exact ⟨gt0_getD hc.1, rfl⟩
  case isFalse => exact Option.noConfusion h

theorem monzoEmit_good {date desc : List Char} {amount : ℚ} {balance : Option ℚ}
    {typ : List Char} {t : Transaction}
    (h : monzoEmit date desc amount balance typ = some t) : 0 ≤ t.amount := by
  unfold monzoEmit at h
  split at h
  case isTrue hc => cases h; exact hc.2
  case isFalse => exact Option.noConfusion h

theorem genericEmitRecord_good {dm desc : List Char} {amount : ℚ}
    {balance : Option ℚ} {typ : List Char} {t : Transaction}
    (h : genericEmitRecord dm desc amount balance typ = some t) :
    t.amount = amount ∧ amount ≠ 0 ∧ t.type = some typ := by
  unfold genericEmitRecord at h
  split at h
  case isTrue => exact Option.noConfusion h
  case isFalse hc => cases h; exact ⟨rfl, hc, rfl⟩

theorem mkBroughtForward_inv (date : List Char) (balance : Option ℚ) :
    AmountTypeInv (mkBroughtForward date balance) :=
  ⟨le_refl 0, by simp [mkBroughtForward], by simp [mkBroughtForward]⟩

/-- Every record the strict generic tier emits has a positive amount and
type `credit`/`debit` (the emission is guarded by
`if (isNaN(amount) || amount === 0) continue`, and `amount` is the first
positive parsed token, hence non-negative). -/
theorem genericProcessLine_good {l : List Char} {t : Transaction}
    (h : genericProcessLine l = some t) :
    0 < t.amount ∧ (t.type = some "credit".data ∨ t.type = some "debit".data) := by
  unfold genericProcessLine at h
  rcases hc : genericCandidate l with - | ⟨dm, description, line, amounts⟩ <;>
    rw [hc] at h
  · exact Option.noConfusion h
  · obtain ⟨ha, hne, hty⟩ := genericEmitRecord_good h
    refine ⟨ha ▸ lt_of_le_of_ne (firstPositiveAmount_nonneg _) (Ne.symm hne), ?_⟩
    rw [hty]
    repeat' split
    all_goals simp

theorem lenientResolve_type (mi mo : ℚ) :
    (lenientResolve mi mo).2 = "credit".data ∨ (lenientResolve mi mo).2 = "debit".data := by
  unfold lenientResolve; repeat' split
  all_goals simp

theorem columnarResolve_type (mi mo : ℚ) :
    (columnarResolve mi mo).2 = "credit".data ∨ (columnarResolve mi mo).2 = "debit".data := by
  unfold columnarResolve; repeat' split
  all_goals simp

/-- `emitGuard` applied to a resolver's output pair: the record satisfies
the invariant whenever the resolver only produces `credit`/`debit`. -/
theorem emitGuardP_good {date desc : List Char} {bal : Option ℚ}
    {p : ℚ × List Char} {t : Transaction}
    (h : emitGuard date desc p.1 bal p.2 = some t)
    (hres : p.2 = "credit".data ∨ p.2 = "debit".data) : AmountTypeInv t := by
  obtain ⟨hpos, -, hty, -⟩ := emitGuard_good h
  exact amountTypeInv_of_pos hpos
    (by rw [hty]; rcases hres with h' | h' <;> rw [h'] <;> simp)

/-- Every record the lenient tier emits satisfies the invariant (the
emission is guarded by `if (amount > 0 && description)`, and the type
comes from `lenientResolve`). -/
theorem lenientProcessLine_good {l : List Char} {t : Transaction}
    (h : lenientProcessLine l = some t) : AmountTypeInv t := by
  unfold lenientProcessLine at h
  rcases hc : lenientCandidate l with - | ⟨dm, de, mi, mo, bal⟩ <;> rw [hc] at h
  · exact Option.noConfusion h
  · exact emitGuardP_good h (lenientResolve_type mi mo)

theorem natWestResolve3_type (a b : ℚ) :
    (natWestResolve3 a b).2 = "credit".data ∨ (natWestResolve3 a b).2 = "debit".data := by
  unfold natWestResolve3; repeat' split
  all_goals simp

theorem natWestResolve_type (amounts : List ℚ) (desc : List Char) :
    (natWestResolve amounts desc).2 = "credit".data ∨
    (natWestResolve amounts desc).2 = "debit".data := by
  unfold natWestResolve; repeat' split
  any_goals exact natWestResolve3_type _ _
  all_goals simp

/-- Every record `natWestAssemble` emits satisfies the invariant. -/
theorem natWestAssemble_good {date fullText : List Char} {t : Transaction}
    (h : natWestAssemble date fullText = some t) : AmountTypeInv t := by
  unfold natWestAssemble at h
  rcases hn : reFindAll natWestNumPat fullText with - | ⟨n0, ns⟩ <;> rw [hn] at h
  · exact Option.noConfusion h
  · exact emitGuardP_good h (natWestResolve_type _ _)

theorem nationwideResolve3_type (a b : Option ℚ) :
    (nationwideResolve3 a b).2 = "credit".data ∨
    (nationwideResolve3 a b).2 = "debit".data := by
  unfold nationwideResolve3; repeat' split
  all_goals simp

theorem nationwideResolveAmounts_type (amounts : List (Option ℚ)) (desc : List Char) :
    (nationwideResolveAmounts amounts desc).2.1 = "credit".data ∨
    (nationwideResolveAmounts amounts desc).2.1 = "debit".data := by
  unfold nationwideResolveAmounts; repeat' split
  any_goals exact nationwideResolve3_type _ _
  all_goals simp

/-- The Nationwide variant of `emitGuardP_good` for the
`(amount, type, balance)` triple. -/
theorem emitGuardOptP_good {date desc : List Char}
    {r : Option ℚ × List Char × Option ℚ} {t : Transaction}
    (h : emitGuardOpt date desc r.1 r.2.2 r.2.1 = some t)
    (hres : r.2.1 = "credit".data ∨ r.2.1 = "debit".data) : AmountTypeInv t := by
  obtain ⟨hpos, hty⟩ := emitGuardOpt_good h
  exact amountTypeInv_of_pos hpos
    (by rw [hty]; rcases hres with h' | h' <;> rw [h'] <;> simp)

/-- Every record the Nationwide loop body emits satisfies the invariant. -/
theorem nationwideProcessLine_good {l year : List Char} {t : Transaction}
    (h : nationwideProcessLine l year = some t) : AmountTypeInv t := by
  unfold nationwideProcessLine at h
  rcases hk : nationwideKind l year with - | ⟨⟨d, b⟩ | ⟨cd, de, ams⟩⟩
  · rw [hk] at h; exact Option.noConfusion h
  · rw [hk] at h; dsimp only at h
    cases h; exact mkBroughtForward_inv d b
  · rw [hk] at h; dsimp only at h
    split at h
    · exact Option.noConfusion h
    · exact emitGuardOptP_good h (nationwideResolveAmounts_type ams de)

theorem santanderResolve3_type (a b : ℚ) :
    (santanderResolve3 a b).2 = "credit".data ∨ (santanderResolve3 a b).2 = "debit".data := by
  unfold santanderResolve3; repeat' split
  all_goals simp

theorem santanderResolveAmounts_type {amounts : List ℚ} {fullText desc : List Char}
    {r : ℚ × ℚ × List Char}
    (h : santanderResolveAmounts amounts fullText desc = some r) :
    r.2.2 = "credit".data ∨ r.2.2 = "debit".data := by
  simp only [santanderResolveAmounts] at h
  repeat' split at h
  any_goals exact Option.noConfusion h
  all_goals injection h with h
  all_goals subst h
  all_goals simp
  exact santanderResolve3_type _ _

/-- Every record `santanderAssemble` emits satisfies the invariant. -/
theorem santanderAssemble_good {date fullText : List Char} {t : Transaction}
    (h : santanderAssemble date fullText = some t) : AmountTypeInv t := by
  unfold santanderAssemble at h
  rcases hn : reFindAll santanderNumPat (santanderCleanText fullText) with - | ⟨n0, ns⟩ <;>
    rw [hn] at h
  · exact Option.noConfusion h
  · rw [Option.bind_eq_some] at h
    obtain ⟨⟨a, b, ty⟩, h1, h2⟩ := h
    obtain ⟨hpos, -, hty, -⟩ := emitGuard_good h2
    refine amountTypeInv_of_pos hpos ?_
    rw [hty]
    rcases santanderResolveAmounts_type h1 with h' | h' <;> simp_all

/-- The columnar loop only emits records satisfying the invariant. -/
theorem columnarLoop_good : ∀ (fuel : ℕ) (lines : List (List Char)) (i : ℕ)
    (t : Transaction), t ∈ columnarLoop fuel lines i → AmountTypeInv t := by
  intro fuel
  induction fuel with
  | zero => intro lines i t ht; simp [columnarLoop] at ht
  | succ n ih =>
    intro lines i t ht
    simp only [columnarLoop] at ht
    repeat' split at ht
    any_goals simp at ht
    any_goals exact ih _ _ _ ht
    rcases ht with rfl | ht
    · exact emitGuardP_good (by assumption) (columnarResolve_type _ _)
    · exact ih _ _ _ ht

/-- The Monzo loop only emits records with a non-negative amount
(`amount = Math.abs(…)` and the `amount >= 0` guard). -/
theorem monzoLoop_nonneg : ∀ (fuel : ℕ) (lines : List (List Char)) (i : ℕ)
    (sec : Bool) (t : Transaction), t ∈ monzoLoop fuel lines i sec → 0 ≤ t.amount := by
  intro fuel
  induction fuel with
  | zero => intro lines i sec t ht; simp [monzoLoop] at ht
  | succ n ih =>
    intro lines i sec t ht
    simp only [monzoLoop] at ht
    repeat' split at ht
    any_goals simp at ht
    any_goals exact ih _ _ _ _ ht
    rcases ht with rfl | ht
    · exact monzoEmit_good (by assumption)
    · exact ih _ _ _ _ ht

/-- The NatWest loop only emits records satisfying the invariant. -/
theorem natWestLoop_good : ∀ (fuel : ℕ) (lines : List (List Char))
    (year : List Char) (i : ℕ) (cd : List Char) (t : Transaction),
    t ∈ natWestLoop fuel lines year i cd → AmountTypeInv t := by
  intro fuel
  induction fuel with
  | zero => intro lines year i cd t ht; simp [natWestLoop] at ht
  | succ n ih =>
    intro lines year i cd t ht
    simp only [natWestLoop] at ht
    repeat' split at ht
    any_goals simp at ht
    any_goals exact ih _ _ _ _ _ ht
    all_goals rcases ht with rfl | ht
    · exact mkBroughtForward_inv _ _
    · exact ih _ _ _ _ _ ht
    · exact natWestAssemble_good (by assumption)
    · exact ih _ _ _ _ _ ht

/-- The Santander loop only emits records satisfying the invariant. -/
theorem santanderLoop_good : ∀ (fuel : ℕ) (lines : List (List Char))
    (year : List Char) (i : ℕ) (t : Transaction),
    t ∈ santanderLoop fuel lines year i → AmountTypeInv t := by
  intro fuel
  induction fuel with
  | zero => intro lines year i t ht; simp [santanderLoop] at ht
  | succ n ih =>
    intro lines year i t ht
    simp only [santanderLoop] at ht
    repeat' split at ht
    any_goals simp at ht
    any_goals exact ih _ _ _ _ ht
    all_goals rcases ht with rfl | ht
    · exact mkBroughtForward_inv _ _
    · exact ih _ _ _ _ ht
    · exact santanderAssemble_good (by assumption)
    · exact ih _ _ _ _ ht

/-! ### Parser-level invariant lemmas -/

theorem extractTransactionsGeneric_good {text : List Char} {t : Transaction}
    (ht : t ∈ extractTransactionsGeneric text) :
    0 < t.amount ∧ (t.type = some "credit".data ∨ t.type = some "debit".data) := by
  unfold extractTransactionsGeneric at ht
  obtain ⟨l, -, hl⟩ := List.mem_filterMap.mp ht
  exact genericProcessLine_good hl

theorem extractTransactionsGeneric_inv {text : List Char} {t : Transaction}
    (ht : t ∈ extractTransactionsGeneric text) : AmountTypeInv t := by
  obtain ⟨hpos, hty⟩ := extractTransactionsGeneric_good ht
  exact amountTypeInv_of_pos hpos hty

theorem extractTransactionsColumnar_inv {lines : List (List Char)} {startIndex : ℕ}
    {t : Transaction} (ht : t ∈ extractTransactionsColumnar lines startIndex) :
    AmountTypeInv t := by
  unfold extractTransactionsColumnar at ht
  exact columnarLoop_good _ _ _ _ ht

theorem extractTransactionsLenient_inv {text : List Char} {t : Transaction}
    (ht : t ∈ extractTransactionsLenient text) : AmountTypeInv t := by
  simp only [extractTransactionsLenient] at ht
  split at ht
  · exact extractTransactionsColumnar_inv ht
  · obtain ⟨l, -, hl⟩ := List.mem_filterMap.mp ht
    exact lenientProcessLine_good hl

theorem extractMonzoTransactions_nonneg {text : List Char} {t : Transaction}
    (ht : t ∈ extractMonzoTransactions text) : 0 ≤ t.amount := by
  unfold extractMonzoTransactions at ht
  exact monzoLoop_nonneg _ _ _ _ _ ht

theorem extractNatWestTransactions_inv {text : List Char} {t : Transaction}
    (ht : t ∈ extractNatWestTransactions text) : AmountTypeInv t := by
  unfold extractNatWestTransactions at ht
  exact natWestLoop_good _ _ _ _ _ _ ht

theorem extractNationwideTransactions_inv {text : List Char} {t : Transaction}
    (ht : t ∈ extractNationwideTransactions text) : AmountTypeInv t := by
  unfold extractNationwideTransactions at ht
  obtain ⟨l, -, hl⟩ := List.mem_filterMap.mp ht
  exact nationwideProcessLine_good hl

theorem extractSantanderTransactions_inv {text : List Char} {t : Transaction}
    (ht : t ∈ extractSantanderTransactions text) : AmountTypeInv t := by
  unfold extractSantanderTransactions at ht
  exact santanderLoop_good _ _ _ _ _ ht

/-! ### `cleanOCRText` on confusable-free text

The characters `cleanOCRText`'s seven rules can rewrite: `O`, `I`, `l`,
`S`, `B`, and the currency-garble class (`E` and the `€`-mojibake
bytes).  On a string containing none of them every rule is the identity,
which gives the idempotence of the repair on already-clean text. -/

def ocrConfusable (c : Char) : Bool :=
  c = 'O' || c = 'I' || c = 'l' || c = 'S' || c = 'B' || ocrCurrencyGarble c

theorem ocrRule1Tail_none {s : List Char}
    (h : ∀ c ∈ s, ocrCurrencyGarble c = false) : ocrRule1Tail s = none := by
  induction s with
  | nil => rfl
  | cons c rest ih =>
    rw [ocrRule1Tail]
    by_cases hws : jsIsWs c = true
    · rw [if_pos hws]
      exact ih fun c hc => h c (List.mem_cons_of_mem _ hc)
    · rw [if_neg hws, if_neg (by simp [h c (List.mem_cons_self c rest)])]

theorem ocrRule1F_id : ∀ (fuel : ℕ) (s : List Char),
    (∀ c ∈ s, ocrCurrencyGarble c = false) → ocrRule1F fuel s = s := by
  intro fuel
  induction fuel with
  | zero => intro s h; rfl
  | succ n ih =>
    intro s h
    cases s with
    | nil => rfl
    | cons c rest =>
      rw [ocrRule1F]
      have hrest : ∀ c ∈ rest, ocrCurrencyGarble c = false :=
        fun c hc => h c (List.mem_cons_of_mem _ hc)
      by_cases hc : (c = '£' || c = '$') = true
      · rw [if_pos hc, ocrRule1Tail_none hrest, ih rest hrest]
      · rw [if_neg hc, ih rest hrest]

theorem ocrRule2_id : ∀ (s : List Char), (∀ c ∈ s, c ≠ 'O') →
    ∀ prev, ocrRule2 prev s = s := by
  intro s
  induction s with
  | nil => intro h prev; rfl
  | cons c rest ih =>
    intro h prev
    have hrest : ∀ c ∈ rest, c ≠ 'O' := fun c hc => h c (List.mem_cons_of_mem _ hc)
    rw [ocrRule2.eq_def]
    split
    · rename_i heq
      injection heq with hc _
      exact absurd hc (h c (List.mem_cons_self c _))
    · rename_i heq
      injection heq with hc htl
      subst hc; subst htl
      rw [ih hrest]
    · rename_i heq
      exact List.noConfusion heq

theorem ocrRule3_id : ∀ (s : List Char), (∀ c ∈ s, c ≠ 'O') → ocrRule3 s = s := by
  intro s
  induction s with
  | nil => intro h; rfl
  | cons c rest ih =>
    intro h
    have hrest : ∀ c ∈ rest, c ≠ 'O' := fun c hc => h c (List.mem_cons_of_mem _ hc)
    rw [ocrRule3.eq_def]
    split
    · rename_i heq
      injection heq with _ htl
      exact absurd rfl (hrest 'O' (htl ▸ List.mem_cons_self 'O' _))
    · rename_i heq
      injection heq with hc htl
      subst hc; subst htl
      rw [ih hrest]
    · rename_i heq
      exact List.noConfusion heq

theorem ocrRule4_id : ∀ (s : List Char), (∀ c ∈ s, c ≠ 'I' ∧ c ≠ 'l') →
    ∀ prev, ocrRule4 prev s = s := by
  intro s
  induction s with
  | nil => intro h prev; rfl
  | cons c rest ih =>
    intro h prev
    have hrest : ∀ c ∈ rest, c ≠ 'I' ∧ c ≠ 'l' :=
      fun c hc => h c (List.mem_cons_of_mem _ hc)
    rw [ocrRule4.eq_def]
    split
    · rename_i heq
      injection heq with hc htl
      subst hc; subst htl
      rw [if_neg (by simp [(h c (List.mem_cons_self c _)).1,
        (h c (List.mem_cons_self c _)).2]), ih hrest]
    · rename_i heq
      injection heq with hc htl
      subst hc
      rw [htl]
    · rename_i heq
      exact List.noConfusion heq

theorem ocrRule5_id : ∀ (s : List Char), (∀ c ∈ s, c ≠ 'I' ∧ c ≠ 'l') →
    ocrRule5 s = s := by
  intro s
  induction s with
  | nil => intro h; rfl
  | cons c rest ih =>
    intro h
    have hrest : ∀ c ∈ rest, c ≠ 'I' ∧ c ≠ 'l' :=
      fun c hc => h c (List.mem_cons_of_mem _ hc)
    rw [ocrRule5.eq_def]
    split
    · rename_i heq
      injection heq with hc htl
      subst hc; subst htl
      rename_i d2 rest2
      rw [if_neg (by simp [(hrest d2 (List.mem_cons_self d2 _)).1,
        (hrest d2 (List.mem_cons_self d2 _)).2]), ih hrest]
    · rename_i heq
      injection heq with hc htl
      subst hc; subst htl
      rw [ih hrest]
    · rename_i heq
      exact List.noConfusion heq

theorem ocrRule6F_id : ∀ (fuel : ℕ) (s : List Char), (∀ c ∈ s, c ≠ 'O') →
    ∀ prev, ocrRule6F fuel prev s = s := by
  intro fuel
  induction fuel with
  | zero => intro s h prev; rfl
  | succ n ih =>
    intro s h prev
    cases s with
    | nil => rfl
    | cons c rest =>
      have hrest : ∀ c ∈ rest, c ≠ 'O' := fun c hc => h c (List.mem_cons_of_mem _ hc)
      rw [ocrRule6F.eq_def]
      split
      · rfl
      · rename_i heq
        exact heq.symm
      · rename_i heq
        injection heq with hc _
        exact absurd hc (h c (List.mem_cons_self c _))
      · rename_i heqf heq
        injection heq with hc htl
        injection heqf with hf
        subst hc; subst htl; subst hf
        rw [ih _ hrest]

theorem ocrRule7Scan_none {c : Char} {rest : List Char}
    (h : ∀ x ∈ rest, x ≠ 'S' ∧ x ≠ 'B') : ocrRule7Scan c rest = none := by
  simp only [ocrRule7Scan]
  split
  · split
    · rename_i l d rest2 heq
      split
      · rename_i hcond
        exfalso
        have hl2 : l ∈ List.drop (rest.takeWhile jsIsDigit).length rest := by
          rw [heq]; simp
        have hl : l ∈ rest := List.drop_subset _ _ hl2
        simp only [Bool.and_eq_true, Bool.or_eq_true] at hcond
        rcases hcond.1 with h' | h'
        · exact (h l hl).1 (by simpa using h')
        · exact (h l hl).2 (by simpa using h')
      · rfl
    · rfl
  · rfl

theorem ocrRule7F_id : ∀ (fuel : ℕ) (s : List Char), (∀ c ∈ s, c ≠ 'S' ∧ c ≠ 'B') →
    ocrRule7F fuel s = s := by
  intro fuel
  induction fuel with
  | zero => intro s h; rfl
  | succ n ih =>
    intro s h
    cases s with
    | nil => rfl
    | cons c rest =>
      have hrest : ∀ c ∈ rest, c ≠ 'S' ∧ c ≠ 'B' :=
        fun c hc => h c (List.mem_cons_of_mem _ hc)
      rw [ocrRule7F, ocrRule7Scan_none hrest, ih rest hrest]

/-- On confusable-free text `cleanOCRText` is the identity. -/
theorem cleanOCRText_id {s : List Char} (h : ∀ c ∈ s, ocrConfusable c = false) :
    cleanOCRText s = s := by
  have hgarble : ∀ c ∈ s, ocrCurrencyGarble c = false := by
    intro c hc; have := h c hc; simp [ocrConfusable] at this; tauto
  have hO : ∀ c ∈ s, c ≠ 'O' := by
    intro c hc; have := h c hc; simp [ocrConfusable] at this; tauto
  have hIl : ∀ c ∈ s, c ≠ 'I' ∧ c ≠ 'l' := by
    intro c hc; have := h c hc; simp [ocrConfusable] at this; tauto
  have hSB : ∀ c ∈ s, c ≠ 'S' ∧ c ≠ 'B' := by
    intro c hc; have := h c hc; simp [ocrConfusable] at this; tauto
  unfold cleanOCRText ocrRule1 ocrRule6 ocrRule7
  rw [ocrRule1F_id _ _ hgarble, ocrRule2_id _ hO, ocrRule3_id _ hO,
    ocrRule4_id _ hIl, ocrRule5_id _ hIl, ocrRule6F_id _ _ hO, ocrRule7F_id _ _ hSB]

/-! ## The claims -/

/-- A two-line NatWest statement body: a card transaction followed by a
`BROUGHT FORWARD` line. -/
def natWestSampleText : List Char :=
  "08 SEP Card Transaction TESCO 10.00 90.00\n09 SEP BROUGHT FORWARD 100.00".data

/-- The debit record the NatWest parser emits for the first line of
`natWestSampleText` (the statement year defaults to the current year,
2025 in this development). -/
def natWestSampleDebit : Transaction :=
  ⟨"08 SEP 2025".data, "Card Transaction TESCO".data, 10, some 90,
    some "debit".data⟩

/-- The `brought_forward` record the NatWest parser emits for the second
line of `natWestSampleText`. -/
def natWestSampleBF : Transaction :=
  ⟨"09 SEP 2025".data, "BROUGHT FORWARD".data, 0, some 100,
    some "brought_forward".data⟩

/-- A Monzo statement body with a single `0.00` line. -/
def monzoZeroCreditText : List Char :=
  "Date Amount Balance\n12/01/2025REFUND 0.00 80.00".data

/-- A CSV row whose `debit` column holds a negative amount. -/
def csvNegativeDebitRow : Row :=
  [("date".data, "01/01/2024".data), ("debit".data, "-4.50".data)]

/-- **C1** (corrected).  Amount-sign invariant.  Every transaction the
seven PDF parsers emit has `amount ≥ 0`; a zero amount forces the
`brought_forward` type for six of them, but the Monzo parser's guard is
`amount >= 0`, so it emits zero-amount `credit`/`debit` records, and the
CSV mapper's `debit`/`credit` branches take `parseFloat` without
`Math.abs`, so a negative CSV amount passes through (see the
counterexample). -/
theorem amountSignInvariant (text : List Char) (startIdx : ℕ) (t : Transaction)
    (h : t ∈ extractTransactionsGeneric text ∨
      t ∈ extractTransactionsLenient text ∨
      t ∈ extractTransactionsColumnar (jsSplitNl text) startIdx ∨
      t ∈ extractMonzoTransactions text ∨
      t ∈ extractNatWestTransactions text ∨
      t ∈ extractNationwideTransactions text ∨
      t ∈ extractSantanderTransactions text) :
    0 ≤ t.amount ∧ (t.amount = 0 →
      t.type = some "brought_forward".data ∨
      t ∈ extractMonzoTransactions text) := by
  rcases h with h | h | h | h | h | h | h
  · obtain ⟨h1, h2, -⟩ := extractTransactionsGeneric_inv h
    exact ⟨h1, fun h0 => Or.inl (h2.mp h0)⟩
  · obtain ⟨h1, h2, -⟩ := extractTransactionsLenient_inv h
    exact ⟨h1, fun h0 => Or.inl (h2.mp h0)⟩
  · obtain ⟨h1, h2, -⟩ := extractTransactionsColumnar_inv h
    exact ⟨h1, fun h0 => Or.inl (h2.mp h0)⟩
  · exact ⟨extractMonzoTransactions_nonneg h, fun _ => Or.inr h⟩
  · obtain ⟨h1, h2, -⟩ := extractNatWestTransactions_inv h
    exact ⟨h1, fun h0 => Or.inl (h2.mp h0)⟩
  · obtain ⟨h1, h2, -⟩ := extractNationwideTransactions_inv h
    exact ⟨h1, fun h0 => Or.inl (h2.mp h0)⟩
  · obtain ⟨h1, h2, -⟩ := extractSantanderTransactions_inv h
    exact ⟨h1, fun h0 => Or.inl (h2.mp h0)⟩

/-- `amountSignInvariant` applied to the debit record of the NatWest
sample statement. -/
theorem amountSignInvariant_witness :
    0 ≤ natWestSampleDebit.amount ∧ (natWestSampleDebit.amount = 0 →
      natWestSampleDebit.type = some "brought_forward".data ∨
      natWestSampleDebit ∈ extractMonzoTransactions natWestSampleText) :=
  amountSignInvariant natWestSampleText 0 natWestSampleDebit
    (Or.inr (Or.inr (Or.inr (Or.inr (Or.inl (by decide))))))

/-- Counterexample to C1 as claimed: the CSV mapper emits a `debit`
record with amount `-4.5`, and the Monzo parser emits a `credit` record
with amount `0`. -/
theorem amountSignInvariant_cex :
    mapRowToTransaction csvNegativeDebitRow =
      some ⟨"01/01/2024".data, "Unknown transaction".data, -(mkRat 9 2), none,
        some "debit".data⟩ ∧
    (-(mkRat 9 2) : ℚ) < 0 ∧
    extractMonzoTransactions monzoZeroCreditText =
      [⟨"12/01/2025".data, "REFUND 0.00 8".data, 0, some 80,
        some "credit".data⟩] :=
  ⟨by decide, by decide, by decide⟩

/-- **C2** (code bug).  On the line `01/12/2024 TESCO STORES 45.57
120.00` the generic parser's amount regex `([\d,]+\.?\d{0,2})` also
matches the date's digit groups: the first "amount" is the `01` inside
the date, so `substring(dateEnd, firstAmountIndex)` runs backwards
(JS swaps the bounds) and returns the date itself as the description,
and the emitted amount is `parseFloat("01") = 1`, not `45.57`.  The
emitted record differs from the spec's scenario in description and
amount. -/
theorem genericScenarioActual :
    extractTransactions "01/12/2024 TESCO STORES 45.57 120.00".data =
      [⟨"01/12/2024".data, "01/12/2024".data, 1, some 120, some "debit".data⟩] ∧
    extractTransactions "01/12/2024 TESCO STORES 45.57 120.00".data ≠
      [⟨"01/12/2024".data, "TESCO STORES".data, mkRat 4557 100, some 120,
        some "debit".data⟩] :=
  ⟨by decide, by decide⟩

/-- **C3** (corrected).  The controller never runs OCR: the OCR branch
of `handleUpload` is commented out (part_001 lines 47–56), so when
`parsePDF` reports `needsOCR` the transaction list is empty and the
controller returns the 400 error response, and every success response
carries `usedOCR = false` and no confidence score. -/
theorem uploadPipelineNoOCR (text : List Char) (numPages : ℕ) :
    ((parsePDF text numPages).needsOCR = true →
      handleUploadPdf text numPages =
        .clientError (emptyResultMessage text) (jsSubstring text 0 500)) ∧
    (∀ n u c, handleUploadPdf text numPages = .success n u c →
      u = false ∧ c = none) := by
  unfold handleUploadPdf parsePDF respondParsed
  cases hs : isLikelyScannedPDF text numPages with
  | true =>
    refine ⟨fun _ => by simp, fun n u c h => ?_⟩
    simp at h
  | false =>
    simp only [Bool.false_eq_true, if_false]
    refine ⟨fun hocr => ?_, fun n u c h => ?_⟩
    · simp only [decide_eq_true_eq] at hocr
      rw [if_pos hocr.1]
    · split at h
      · exact absurd h (by simp)
      · injection h with h1 h2 h3
        exact ⟨h2.symm, h3.symm⟩

/-- `uploadPipelineNoOCR` applied to a one-character, one-page upload,
which the detector flags as scanned. -/
theorem uploadPipelineNoOCR_witness :
    handleUploadPdf "x".data 1 =
      .clientError (emptyResultMessage "x".data) (jsSubstring "x".data 0 500) :=
  (uploadPipelineNoOCR "x".data 1).1 (by decide)

/-- Counterexample to C3 as claimed: the one-character, one-page upload
has `needsOCR = true`, yet the response is the 400 error, not a result
carrying `usedOCR = true` and a confidence score. -/
theorem uploadPipelineNoOCR_cex :
    (parsePDF "x".data 1).needsOCR = true ∧
    handleUploadPdf "x".data 1 =
      .clientError ("No transactions found in the file. " ++
        "Please check the file format or try a different statement.").data
        "x".data :=
  ⟨by decide, by decide⟩

/-- **C4** (corrected).  The detector's exact decision: true iff the
trimmed length is under a fifth of `numPages * 1000`, or the trimmed
length is non-zero and fewer than half the characters are alphanumeric.
The spec's little-text and 80-chars-on-3-pages cases hold, but its
`textLength = 0` edge case is wrong when `numPages = 0`: both sides of
the length test are `0`, the ratio is `NaN`, `NaN < 0.5` is false, and
the function returns false, not true. -/
theorem scannedDetector (text : List Char) (numPages : ℕ) :
    (isLikelyScannedPDF text numPages = true ↔
      ((jsTrim text).length * 5 < numPages * 1000 ∨
        ((jsTrim text).length ≠ 0 ∧
          alnumCount text * 2 < (jsTrim text).length))) ∧
    (0 < numPages → (jsTrim text).length = 0 →
      isLikelyScannedPDF text numPages = true) ∧
    ((jsTrim text).length = 80 → isLikelyScannedPDF text 3 = true) := by
  refine ⟨?_, ?_, ?_⟩
  · unfold isLikelyScannedPDF
    dsimp only
    split_ifs with h1 h2 h3 <;> simp_all
  · intro hp h0
    unfold isLikelyScannedPDF
    rw [h0]
    simp
    omega
  · intro h80
    unfold isLikelyScannedPDF
    rw [h80]
    norm_num

/-- `scannedDetector` applied to the empty text on a one-page document. -/
theorem scannedDetector_witness : isLikelyScannedPDF "".data 1 = true :=
  (scannedDetector "".data 1).2.1 (by decide) (by decide)

/-- Counterexample to C4 as claimed: with `pageCount = 0` and empty text
the detector returns false, not true. -/
theorem scannedDetector_cex : isLikelyScannedPDF "".data 0 = false := by
  decide

/-- **C5** (corrected).  `cleanOCRText` is not idempotent in general
(see the counterexample: rule 1 deletes one garbled letter after a
currency symbol per pass), but it is the identity — hence idempotent —
on text free of the confusable characters the seven rules rewrite
(`O`, `I`, `l`, `S`, `B`, `E`, and the `€`-mojibake bytes). -/
theorem repairIdempotentOnClean (s : List Char)
    (h : ∀ c ∈ s, ocrConfusable c = false) :
    cleanOCRText (cleanOCRText s) = cleanOCRText s := by
  rw [cleanOCRText_id h, cleanOCRText_id h]

/-- `repairIdempotentOnClean` applied to a confusable-free statement
line. -/
theorem repairIdempotentOnClean_witness :
    cleanOCRText (cleanOCRText "card payment 123.45".data) =
      cleanOCRText "card payment 123.45".data :=
  repairIdempotentOnClean "card payment 123.45".data (by decide)

/-- Counterexample to C5 as claimed: on `£EE` the first pass deletes
only the first garbled `E` (the `/g` scan resumes after the match), the
second pass deletes the next one, so repair of the repaired text differs
from the repaired text. -/
theorem repairIdempotent_cex :
    cleanOCRText (cleanOCRText "£EE".data) ≠ cleanOCRText "£EE".data := by
  decide

/-- **C6** (code bug).  Repairing `O1/12/2024 TESCO STORES E45.S7`
fixes the date's leading `O` and the `S` after the decimal point, but
the stray `E` before `45.57` survives: the only currency rule rewrites
a garbled letter after a `£` or `$`, and the `replacements` table
containing `E → £` is dead code, so the result keeps `E45.57` where the
spec expects `£45.57`. -/
theorem ocrRepairScenarioActual :
    cleanOCRText "O1/12/2024 TESCO STORES E45.S7".data =
      "01/12/2024 TESCO STORES E45.57".data ∧
    cleanOCRText "O1/12/2024 TESCO STORES E45.S7".data ≠
      "01/12/2024 TESCO STORES £45.57".data :=
  ⟨by decide, by decide⟩

/-- The spec's scenario-4 CSV row, with its exact header spellings. -/
def csvPostingDateRow : Row :=
  [("Posting Date".data, "01/01/2024".data), ("Details".data, "Coffee Shop".data),
    ("Debit".data, "4.50".data), ("Credit".data, "".data),
    ("Running Balance".data, "95.50".data)]

/-- The same row under the lower-case header spellings that the mapper's
synonym lists do contain. -/
def csvLowercaseRow : Row :=
  [("posting date".data, "01/01/2024".data), ("details".data, "Coffee Shop".data),
    ("debit".data, "4.50".data), ("credit".data, "".data),
    ("running balance".data, "95.50".data)]

/-- **C7** (corrected).  Key resolution is a single exact-case pass over
the synonym lists — there is no case-insensitive fallback — and
`"Posting Date"` is missing from `dateKeys` (only `"posting date"`,
`"Date"` and `"Transaction Date"` are listed), so the spec's scenario-4
row maps to `null` (see the counterexample).  Under the lower-case
spellings the row maps to the expected transaction. -/
theorem csvScenarioLowercaseKeys :
    mapRowToTransaction csvLowercaseRow =
      some ⟨"01/01/2024".data, "Coffee Shop".data, mkRat 9 2, some (mkRat 191 2),
        some "debit".data⟩ := by
  decide

/-- Counterexample to C7 as claimed: the exact scenario-4 headers
resolve no date (`"Posting Date"` is not in `dateKeys`), so the row is
rejected. -/
theorem csvScenario_cex : mapRowToTransaction csvPostingDateRow = none := by
  decide

/-- **C8** (confirmed).  Whenever the PDF parse or the CSV parse yields
no transactions, the controller returns the structured 400 response:
the empty-result message and the first 500 characters of the raw
content — never an empty success. -/
theorem emptyResultStructuredFailure (text : List Char) (numPages : ℕ)
    (rows : List Row) (raw : List Char) :
    ((parsePDF text numPages).transactions = [] →
      handleUploadPdf text numPages =
        .clientError (emptyResultMessage text) (jsSubstring text 0 500)) ∧
    (parseCSVRows rows = [] →
      handleUploadCsv rows raw =
        .clientError (emptyResultMessage raw) (jsSubstring raw 0 500)) := by
  constructor
  · intro h
    have hraw : (parsePDF text numPages).rawText = text := by
      unfold parsePDF
      split <;> rfl
    show respondParsed (parsePDF text numPages).transactions
      (parsePDF text numPages).rawText = _
    rw [h, hraw]
    unfold respondParsed
    rw [if_pos rfl]
  · intro h
    show respondParsed (parseCSVRows rows) raw = _
    rw [h]
    unfold respondParsed
    rw [if_pos rfl]

/-- `emptyResultStructuredFailure` applied to an empty upload. -/
theorem emptyResultStructuredFailure_witness :
    handleUploadPdf "".data 0 =
      .clientError (emptyResultMessage "".data) (jsSubstring "".data 0 500) :=
  (emptyResultStructuredFailure "".data 0 [] "".data).1 (by decide)

/-- **C9** (corrected).  In the NatWest and Nationwide parsers a
`brought_forward` record always carries `amount = 0` and the description
`BROUGHT FORWARD`, but it does not precede the other transactions and
is not unique: the `BROUGHT FORWARD` line is handled inside the main
scanning loop at its own line position, not in a separate pre-pass (see
the counterexample, where it comes second). -/
theorem broughtForwardShape (text : List Char) (t : Transaction)
    (h : t ∈ extractNatWestTransactions text ∨
      t ∈ extractNationwideTransactions text)
    (hbf : t.type = some "brought_forward".data) :
    t.amount = 0 ∧ t.description = "BROUGHT FORWARD".data := by
  rcases h with h | h
  · obtain ⟨-, h2, h3⟩ := extractNatWestTransactions_inv h
    exact ⟨h2.mpr hbf, h3 hbf⟩
  · obtain ⟨-, h2, h3⟩ := extractNationwideTransactions_inv h
    exact ⟨h2.mpr hbf, h3 hbf⟩

/-- `broughtForwardShape` applied to the `brought_forward` record of the
NatWest sample statement. -/
theorem broughtForwardShape_witness :
    natWestSampleBF.amount = 0 ∧
    natWestSampleBF.description = "BROUGHT FORWARD".data :=
  broughtForwardShape natWestSampleText natWestSampleBF (Or.inl (by decide))
    (by decide)

/-- Counterexample to C9 as claimed: on the NatWest sample statement the
`brought_forward` record comes second, after the debit record. -/
theorem broughtForward_order_cex :
    extractNatWestTransactions natWestSampleText =
      [natWestSampleDebit, natWestSampleBF] ∧
    natWestSampleBF.type = some "brought_forward".data ∧
    natWestSampleDebit.type ≠ some "brought_forward".data :=
  ⟨by decide, by decide, by decide⟩

/-- **C10** (confirmed).  In every three-number branch
(`[moneyIn, moneyOut, balance]`), a positive `moneyIn` wins the
tie-break and yields `(moneyIn, credit)` whatever `moneyOut` is; when
`moneyIn = 0` and `moneyOut` is positive the result is
`(moneyOut, debit)`.  This covers the lenient, columnar, NatWest and
Santander resolvers and the Nationwide resolver (whose arguments are
`(out, in)` options). -/
theorem threeTokenResolution (mi mo : ℚ) :
    (0 < mi →
      lenientResolve mi mo = (mi, "credit".data) ∧
      columnarResolve mi mo = (mi, "credit".data) ∧
      natWestResolve3 mi mo = (mi, "credit".data) ∧
      santanderResolve3 mi mo = (mi, "credit".data) ∧
      nationwideResolve3 (some mo) (some mi) = (some mi, "credit".data)) ∧
    (mi = 0 → 0 < mo →
      lenientResolve mi mo = (mo, "debit".data) ∧
      columnarResolve mi mo = (mo, "debit".data) ∧
      natWestResolve3 mi mo = (mo, "debit".data) ∧
      santanderResolve3 mi mo = (mo, "debit".data) ∧
      nationwideResolve3 (some mo) (some mi) = (some mo, "debit".data)) := by
  constructor
  · intro hmi
    refine ⟨?_, ?_, ?_, ?_, ?_⟩
    · unfold lenientResolve
      split_ifs <;> simp_all
    · unfold columnarResolve
      split_ifs <;> simp_all
    · unfold natWestResolve3
      split_ifs <;> simp_all
    · unfold santanderResolve3
      split_ifs <;> simp_all
    · unfold nationwideResolve3
      simp only [gt0, decide_eq_true_eq]
      split_ifs <;> simp_all
  · intro hz hmo
    subst hz
    refine ⟨?_, ?_, ?_, ?_, ?_⟩
    · unfold lenientResolve
      split_ifs <;> simp_all
    · unfold columnarResolve
      split_ifs <;> simp_all
    · unfold natWestResolve3
      split_ifs <;> simp_all
    · unfold santanderResolve3
      split_ifs <;> simp_all
    · unfold nationwideResolve3
      simp only [gt0, decide_eq_true_eq]
      split_ifs <;> simp_all

/-- `threeTokenResolution` applied at `moneyIn = 5`, `moneyOut = 3`. -/
theorem threeTokenResolution_witness :
    natWestResolve3 5 3 = ((5 : ℚ), "credit".data) :=
  (((threeTokenResolution 5 3).1 (by norm_num)).2.2).1

end B2F
